import Mathlib

set_option autoImplicit false

/-
Verification development for the snow_extract incident enrichment and
metrics engine (snow_analytics/core/transform.py and
snow_analytics/analysis/metrics.py, quality.py, patterns.py).

Modelling conventions:
* A pandas DataFrame is a `Table`: a list of column names plus a list of
  rows; each row is an association list from column name to `Value`.
  A column is present in the table iff its name is in `cols`; a cell
  holding pandas NaN/NaT is the explicit `Value.na`.
* Python floats are modelled as rationals (`ℚ`); the pipeline only adds,
  subtracts, divides by constants and compares, so this is exact for the
  properties below.
* Timestamps are seconds since the Unix epoch (`Int`), the resolution at
  which the `YYYY-MM-DD HH:MM:SS` inputs are given.
* `pd.Timestamp.now()` inside `calculate_durations` is modelled as an
  explicit `now : Int` argument threaded through the pipeline.
-/

namespace Snow

/-- Cell values of a table: strings, booleans, integers, rationals
(Python floats), datetimes (seconds since epoch), and the explicit
missing marker `na` (pandas NaN / NaT). -/
inductive Value where
  | s (x : String)
  | b (x : Bool)
  | i (x : Int)
  | q (x : ℚ)
  | t (x : Int)
  | na
deriving DecidableEq, Repr

/-- One table row: an association list from column name to cell value. -/
abbrev Row := List (String × Value)

/-- First-key-wins lookup in a row, as pandas row indexing does. -/
def lookup (r : Row) (k : String) : Option Value :=
  match r with
  | [] => none
  | (k', v) :: rest => if k' = k then some v else lookup rest k

/-- Python `row.get(k, default)`: the cell when the key is present,
otherwise the default. -/
def rowGet (r : Row) (k : String) (dflt : Value) : Value :=
  (lookup r k).getD dflt

/-- Set the cell of key `k` (replacing the first occurrence, appending if
absent), as a pandas column assignment updates one row. -/
def rowSet (r : Row) (k : String) (v : Value) : Row :=
  match r with
  | [] => [(k, v)]
  | (k', v') :: rest => if k' = k then (k, v) :: rest else (k', v') :: rowSet rest k v

/-- A DataFrame: column names and rows. -/
structure Table where
  cols : List String
  rows : List Row
deriving DecidableEq, Repr

/-- List of column names after adding `c` (no-op when already present). -/
def addCol (cs : List String) (c : String) : List String :=
  if c ∈ cs then cs else cs ++ [c]

/-- Model of `df[c] = df.apply(f, axis=1)`: assign column `c` row-wise. -/
def assignCol (t : Table) (c : String) (f : Row → Value) : Table :=
  { cols := addCol t.cols c, rows := t.rows.map (fun r => rowSet r c (f r)) }

/-- Model of `df.loc[mask, c] = f(row)`: rows satisfying the mask get the
new value; when the column did not exist it is created with NaN on the
unmasked rows, otherwise unmasked rows keep their old cell. -/
def maskedAssign (t : Table) (c : String) (mask : Row → Bool) (f : Row → Value) : Table :=
  { cols := addCol t.cols c,
    rows := t.rows.map (fun r =>
      if mask r then rowSet r c (f r)
      else if c ∈ t.cols then r else rowSet r c .na) }

/-- The pandas `isna` test on a cell. -/
def isna (v : Value) : Bool :=
  match v with
  | .na => true
  | _ => false

/-- Negation of `isna`. -/
def notna (v : Value) : Bool := !(isna v)

/-- Coerce a cell used as a boolean mask entry; only `True` counts. -/
def valBool (v : Value) : Bool :=
  match v with
  | .b x => x
  | _ => false

/-- Python `str()` of a cell as the pipeline sees it (`astype(str)` /
`str(row.get(...))`); NaN stringifies to `"nan"`. The numeric renderings
are placeholders never exercised by string-typed incident fields. -/
def pyStr (v : Value) : String :=
  match v with
  | .s x => x
  | .b x => if x then "True" else "False"
  | .i x => toString x
  | .q x => toString x
  | .t x => toString x
  | .na => "nan"

/-
Arithmetic helpers. The standard `ℚ` field operations are opaque to
kernel reduction in this toolchain, so every rational computation in the
model goes through `mkRat`-based helpers; the `..._eq` bridge lemmas
below prove each one equal to the corresponding field operation, so the
theorems can be read in ordinary arithmetic.
-/

/-- Integer as a rational, kernel-evaluable. -/
def intToQ (n : Int) : ℚ := mkRat n 1

/-- Natural number as a rational, kernel-evaluable. -/
def natToQ (n : Nat) : ℚ := mkRat n 1

/-- Exact rational addition, kernel-evaluable. -/
def qAdd (a b : ℚ) : ℚ := mkRat (a.num * b.den + b.num * a.den) (a.den * b.den)

/-- Exact rational subtraction, kernel-evaluable. -/
def qSub (a b : ℚ) : ℚ := mkRat (a.num * b.den - b.num * a.den) (a.den * b.den)

/-- Exact rational multiplication, kernel-evaluable. -/
def qMul (a b : ℚ) : ℚ := mkRat (a.num * b.num) (a.den * b.den)

/-- Exact division of a rational by a natural number, kernel-evaluable. -/
def qDivNat (a : ℚ) (n : Nat) : ℚ := mkRat a.num (a.den * n)

/-- Sum of a list of rationals, kernel-evaluable. -/
def qSum (l : List ℚ) : ℚ := l.foldr qAdd 0

/-- Test whether the first character list starts the second. -/
def charsLeadEq : List Char → List Char → Bool
  | [], _ => true
  | _ :: _, [] => false
  | a :: as, b :: bs => a == b && charsLeadEq as bs

/-- Test whether the first character list occurs inside the second. -/
def charsInfix (needle : List Char) : List Char → Bool
  | [] => charsLeadEq needle []
  | c :: rest => charsLeadEq needle (c :: rest) || charsInfix needle rest

/-- Substring containment test (`needle in haystack` in Python). -/
def strContains (hay needle : String) : Bool :=
  charsInfix needle.data hay.data

/-- Lower-case one character (ASCII, which covers every keyword and
priority label of the source; Python `str.lower` agrees on ASCII). -/
def lowerChar (c : Char) : Char :=
  if 65 ≤ c.toNat ∧ c.toNat ≤ 90 then Char.ofNat (c.toNat + 32) else c

/-- Lower-case a string, ASCII. -/
def lowerStr (s : String) : String :=
  ⟨s.data.map lowerChar⟩

/-- Case-insensitive containment, for `str.contains(..., case=False)`. -/
def containsCI (hay pat : String) : Bool :=
  strContains (lowerStr hay) (lowerStr pat)

/-- Leap-year rule of the Gregorian calendar. -/
def isLeapYear (y : Nat) : Bool :=
  (y % 4 == 0 && y % 100 != 0) || (y % 400 == 0)

/-- Number of days of month `m` in year `y`. -/
def daysInMonth (y m : Nat) : Nat :=
  if m = 2 then (if isLeapYear y then 29 else 28)
  else if m = 4 ∨ m = 6 ∨ m = 9 ∨ m = 11 then 30
  else 31

/-- Days from 1970-01-01 to the civil date y-m-d (Howard Hinnant's
days-from-civil algorithm; all divisions act on non-negative operands for
the year range the parser accepts). -/
def daysFromCivil (y m d : Nat) : Int :=
  let y' : Nat := if m ≤ 2 then y - 1 else y
  let era : Nat := y' / 400
  let yoe : Nat := y' - era * 400
  let mp : Nat := (m + 9) % 12
  let doy : Nat := (153 * mp + 2) / 5 + d - 1
  let doe : Nat := yoe * 365 + yoe / 4 - yoe / 100 + doy
  (era * 146097 + doe : Int) - 719468

/-- Value of a decimal digit character. -/
def digitVal? (c : Char) : Option Nat :=
  if 48 ≤ c.toNat ∧ c.toNat ≤ 57 then some (c.toNat - 48) else none

/-- Accumulate a decimal number from characters; any non-digit fails. -/
def natFromCharsAux : List Char → Nat → Option Nat
  | [], acc => some acc
  | c :: cs, acc =>
    match digitVal? c with
    | some d => natFromCharsAux cs (acc * 10 + d)
    | none => none

/-- Read a non-empty all-digit character list as a natural number. -/
def natFromChars (cs : List Char) : Option Nat :=
  match cs with
  | [] => none
  | _ => natFromCharsAux cs 0

/-- Split a character list on a separator character. -/
def splitChar (sep : Char) : List Char → List (List Char)
  | [] => [[]]
  | c :: rest =>
    match splitChar sep rest with
    | [] => [[]]
    | g :: gs => if c == sep then [] :: g :: gs else (c :: g) :: gs

/-- Parse `YYYY-MM-DD HH:MM:SS` into seconds since epoch. Out-of-range
fields fail, as does any other shape; pandas `to_datetime(...,
errors='coerce')` likewise yields NaT on text it cannot interpret (its
representable years are bounded, modelled by the 1678..2261 window). -/
def parseTimestamp (x : String) : Option Int :=
  match splitChar ' ' x.data with
  | [date, time] =>
    match splitChar '-' date, splitChar ':' time with
    | [ys, ms, ds], [hs, mins, ss] =>
      match natFromChars ys, natFromChars ms, natFromChars ds,
          natFromChars hs, natFromChars mins, natFromChars ss with
      | some y, some mo, some d, some h, some mi, some sec =>
        if 1678 ≤ y ∧ y ≤ 2261 ∧ 1 ≤ mo ∧ mo ≤ 12 ∧ 1 ≤ d ∧ d ≤ daysInMonth y mo
            ∧ h ≤ 23 ∧ mi ≤ 59 ∧ sec ≤ 59 then
          some (daysFromCivil y mo d * 86400 + h * 3600 + mi * 60 + sec)
        else none
      | _, _, _, _, _, _ => none
    | _, _ => none
  | _ => none

/-- Model of `pd.to_datetime(cell, errors='coerce')`: already-parsed
datetimes pass through, parseable text becomes a datetime, everything
else becomes NaT. -/
def toDatetime (v : Value) : Value :=
  match v with
  | .t x => .t x
  | .s x =>
    match parseTimestamp x with
    | some n => .t n
    | none => .na
  | _ => .na

/-- Column rename mapping of `normalize_columns` (transform.py lines
101-109): raw export names onto the canonical schema. -/
def normMap (c : String) : String :=
  if c = "incident_state" then "state"
  else if c = "opened" then "openedDate"
  else if c = "opened_at" then "openedDate"
  else if c = "resolved" then "resolvedDate"
  else if c = "resolved_at" then "resolvedDate"
  else if c = "u_resolved" then "resolvedDate"
  else if c = "u_ci_type" then "ci_type"
  else c

/-- Row part of `normalize_columns`: rename the keys. -/
def normRow (r : Row) : Row :=
  r.map (fun p => (normMap p.1, p.2))

/-- Stage `normalize_columns` (transform.py 89-118): rename raw columns
that are present; everything else passes through. -/
def normalize_columns (t : Table) : Table :=
  { cols := t.cols.map normMap, rows := t.rows.map normRow }

/-- Date-bearing columns of `parse_dates` (transform.py line 133). -/
def dateColumns : List String :=
  ["openedDate", "resolvedDate", "closedDate", "sys_created_on", "sys_updated_on"]

/-- Row part of `parse_dates`: re-parse each date column present in the
table. -/
def parseDatesRow (cs : List String) (r : Row) : Row :=
  dateColumns.foldl
    (fun r c => if c ∈ cs then rowSet r c (toDatetime (rowGet r c .na)) else r) r

/-- Stage `parse_dates` (transform.py 121-143): `pd.to_datetime` with
coercion on each date column that exists. -/
def parse_dates (t : Table) : Table :=
  { cols := t.cols, rows := t.rows.map (parseDatesRow t.cols) }

/-- Active lifecycle states (transform.py line 159). -/
def activeStates : List String :=
  ["New", "In Progress", "Awaiting User Info", "On Hold", "Pending"]

/-- Resolved lifecycle states (transform.py line 162). -/
def resolvedStates : List String :=
  ["Resolved", "Closed"]

/-- Model of `series.isin(xs)` on one cell: equality against a list of
strings; NaN and non-strings are not members. -/
def isinStr (v : Value) (xs : List String) : Bool :=
  match v with
  | .s x => xs.contains x
  | _ => false

/-- The `isHighImpact` test: `astype(str).str.contains('1 - Critical|2 -
High', case=False)`. -/
def highImpactTest (v : Value) : Bool :=
  containsCI (pyStr v) "1 - Critical" || containsCI (pyStr v) "2 - High"

/-- The `isCritical` test: `astype(str).str.contains('1 - Critical',
case=False)`. -/
def criticalTest (v : Value) : Bool :=
  containsCI (pyStr v) "1 - Critical"

/-- Row part of `add_status_fields`: the four boolean flags, each
defaulting to false when its source column is absent from the table. -/
def statusRow (cs : List String) (r : Row) : Row :=
  let r1 :=
    if "state" ∈ cs then
      rowSet (rowSet r "isActive" (.b (isinStr (rowGet r "state" .na) activeStates)))
        "isResolved" (.b (isinStr (rowGet r "state" .na) resolvedStates))
    else
      rowSet (rowSet r "isActive" (.b false)) "isResolved" (.b false)
  let r2 :=
    if "priority" ∈ cs then
      rowSet r1 "isHighImpact" (.b (highImpactTest (rowGet r "priority" .na)))
    else
      rowSet r1 "isHighImpact" (.b false)
  if "priority" ∈ cs then
    rowSet r2 "isCritical" (.b (criticalTest (rowGet r "priority" .na)))
  else
    rowSet r2 "isCritical" (.b false)

/-- Stage `add_status_fields` (transform.py 146-179). -/
def add_status_fields (t : Table) : Table :=
  { cols := addCol (addCol (addCol (addCol t.cols "isActive") "isResolved") "isHighImpact") "isCritical",
    rows := t.rows.map (statusRow t.cols) }

/-- Ordered categorization rules: category label with its keyword list.
Python dicts preserve insertion order, so the source's rule dict is an
ordered association list. -/
abbrev Rules := List (String × List String)

/-- Default categorization rules of `add_categorization` itself
(transform.py 201-210), used when it is called with `rules=None`. -/
def defaultCatRules : Rules :=
  [("WiFi/Wireless", ["wifi", "wireless", "access point", "wap", "ssid"]),
   ("VPN/Remote Access", ["vpn", "remote", "zscaler", "remote access", "remote desktop"]),
   ("Network Printing", ["printer", "print", "printing", "print queue"]),
   ("Server/Performance", ["server", "performance", "slow", "clearcase", "application"]),
   ("DNS/Resolution", ["dns", "resolution", "name resolution", "nslookup"]),
   ("Firewall/Security", ["firewall", "blocked", "security", "access denied"]),
   ("Connectivity", ["connectivity", "connection", "network", "ping", "unreachable"]),
   ("Hardware", ["hardware", "device", "router", "switch", "equipment failure"])]

/-- Categorization rules of the default configuration (config.py 109-118),
the ones the full pipeline passes to the categorizer when no config file
exists and `config=None`. -/
def configCatRules : Rules :=
  [("WiFi/Wireless", ["wifi", "wireless", "access point", "wap", "ssid"]),
   ("VPN/Remote Access", ["vpn", "remote", "zscaler", "remote access"]),
   ("Network Printing", ["printer", "print", "printing"]),
   ("Server/Performance", ["server", "performance", "slow", "clearcase"]),
   ("DNS/Resolution", ["dns", "resolution", "name resolution"]),
   ("Firewall/Security", ["firewall", "blocked", "security"]),
   ("Connectivity", ["connectivity", "connection", "network", "ping"]),
   ("Hardware", ["hardware", "device", "router", "switch"])]

/-- Descriptive text of a row as `categorize_incident` builds it:
`' '.join([str(row.get('short_description', '')), str(row.get(
'description', ''))]).lower()`. -/
def catText (r : Row) : String :=
  lowerStr (pyStr (rowGet r "short_description" (.s "")) ++ " "
    ++ pyStr (rowGet r "description" (.s "")))

/-- Test whether any keyword of the list occurs in the text. -/
def anyKeyword (kws : List String) (text : String) : Bool :=
  kws.any (fun k => strContains text k)

/-- First-match-wins category assignment over the ordered rules;
`"Other"` when nothing matches (transform.py 212-225). -/
def categorizeText (rules : Rules) (text : String) : String :=
  match rules with
  | [] => "Other"
  | (c, kws) :: rest => if anyKeyword kws text then c else categorizeText rest text

/-- The `categorize_incident` inner function applied to one row. -/
def categorize_incident (rules : Rules) (r : Row) : String :=
  categorizeText rules (catText r)

/-- Stage `add_categorization` (transform.py 182-233); the Python
default `rules=None` corresponds to passing `defaultCatRules`. -/
def add_categorization (rules : Rules) (t : Table) : Table :=
  assignCol t "patternCategory" (fun r => .s (categorize_incident rules r))

/-- Difference of two datetime cells in hours, as a rational; NaT (or a
cell that is not a datetime) propagates to NaN. -/
def diffHrs (a b : Value) : Value :=
  match a, b with
  | .t x, .t y => .q (mkRat (x - y) 3600)
  | _, _ => .na

/-- Division of a numeric cell by a constant; NaN propagates. -/
def divVal (v : Value) (n : Nat) : Value :=
  match v with
  | .q x => .q (qDivNat x n)
  | _ => .na

/-- Resolved-row mask of `calculate_durations` (transform.py line 250):
both timestamps non-null. -/
def resolvedMask (r : Row) : Bool :=
  notna (rowGet r "resolvedDate" .na) && notna (rowGet r "openedDate" .na)

/-- Resolution time in hours of one masked row (transform.py 252-254). -/
def fRes (r : Row) : Value :=
  diffHrs (rowGet r "resolvedDate" .na) (rowGet r "openedDate" .na)

/-- Resolution time in days of one masked row (transform.py 257). -/
def fResDays (r : Row) : Value :=
  divVal (rowGet r "resolutionTimeHrs" .na) 24

/-- Resolution-time half of `calculate_durations` (transform.py
248-266). -/
def durationsResPart (t : Table) : Table :=
  if "resolvedDate" ∈ t.cols ∧ "openedDate" ∈ t.cols then
    maskedAssign (maskedAssign t "resolutionTimeHrs" resolvedMask fRes)
      "resolutionTimeDays" resolvedMask fResDays
  else
    assignCol (assignCol t "resolutionTimeHrs" (fun _ => .na)) "resolutionTimeDays" (fun _ => .na)

/-- Active mask of the age computation, `df.get('isActive',
all-false)` (transform.py 271). -/
def activeMask (cs : List String) (r : Row) : Bool :=
  if "isActive" ∈ cs then valBool (rowGet r "isActive" .na) else false

/-- Age in hours of one masked row at the wall-clock instant
(transform.py 273-275). -/
def fAge (now : Int) (r : Row) : Value :=
  diffHrs (.t now) (rowGet r "openedDate" .na)

/-- Age in days of one masked row (transform.py 277). -/
def fAgeDays (r : Row) : Value :=
  divVal (rowGet r "ageHrs" .na) 24

/-- Age half of `calculate_durations` (transform.py 268-281); both
`.loc` assignments share the mask computed before them. -/
def durationsAgePart (now : Int) (t : Table) : Table :=
  if "openedDate" ∈ t.cols then
    maskedAssign (maskedAssign t "ageHrs" (activeMask t.cols) (fAge now))
      "ageDays" (activeMask t.cols) fAgeDays
  else
    assignCol (assignCol t "ageHrs" (fun _ => .na)) "ageDays" (fun _ => .na)

/-- Stage `calculate_durations` (transform.py 236-282), with the wall
clock `pd.Timestamp.now()` made explicit as `now`. -/
def calculate_durations (now : Int) (t : Table) : Table :=
  durationsAgePart now (durationsResPart t)

/-- SLA thresholds in hours, keyed by priority text. -/
abbrev SlaRules := List (String × ℚ)

/-- Default SLA rules (transform.py 304-309; identical to config.py
101-106). -/
def defaultSlaRules : SlaRules :=
  [("1 - Critical", 4), ("2 - High", 24), ("3 - Moderate", 72), ("4 - Low", 120)]

/-- Association-list lookup for SLA rules. -/
def rulesFind (rules : SlaRules) (p : String) : Option ℚ :=
  match rules with
  | [] => none
  | (k, v) :: rest => if k = p then some v else rulesFind rest p

/-- The `sla_rules.get(priority, 72)` lookup: non-string priorities (NaN
included) are not dict keys, so they take the 72-hour fallback too. -/
def slaThreshold (rules : SlaRules) (pv : Value) : ℚ :=
  match pv with
  | .s p => (rulesFind rules p).getD 72
  | _ => 72

/-- The inner `check_sla_breach` (transform.py 311-323): false without a
resolution time, else compare against the priority's threshold, with
`row.get('priority', '4 - Low')` supplying the default when the priority
column is absent. -/
def check_sla_breach (rules : SlaRules) (r : Row) : Bool :=
  match rowGet r "resolutionTimeHrs" .na with
  | .q x => decide (x > slaThreshold rules (rowGet r "priority" (.s "4 - Low")))
  | _ => false

/-- The inner `calculate_sla_margin` (transform.py 328-338): threshold
minus resolution time, NaN without a resolution time. -/
def calculate_sla_margin (rules : SlaRules) (r : Row) : Value :=
  match rowGet r "resolutionTimeHrs" .na with
  | .q x => .q (qSub (slaThreshold rules (rowGet r "priority" (.s "4 - Low"))) x)
  | _ => .na

/-- Stage `calculate_sla_breach` (transform.py 285-349): the breach flag
column then the margin column. -/
def calculate_sla_breach (rules : SlaRules) (t : Table) : Table :=
  assignCol (assignCol t "slaBreach" (fun r => .b (check_sla_breach rules r)))
    "slaMarginHrs" (fun r => calculate_sla_margin rules r)

/-- Base user-impact estimate by CI-type substring (transform.py
372-382). -/
def impactBase (ci : String) : ℚ :=
  if strContains ci "server" || strContains ci "firewall" then 100
  else if strContains ci "access point" || strContains ci "wifi" || strContains ci "wireless" then 50
  else if strContains ci "router" || strContains ci "switch" then 75
  else if strContains ci "printer" then 15
  else 25

/-- Priority multiplier (transform.py 384-392). Note the source tests
`'1 - Critical' in priority or '1' in priority` for the 2.0 factor. -/
def impactMult (priority : String) : ℚ :=
  if strContains priority "1 - Critical" || strContains priority "1" then 2
  else if strContains priority "2 - High" then mkRat 3 2
  else if strContains priority "4 - Low" then mkRat 1 2
  else 1

/-- The inner `estimate_impact` (transform.py 367-394): Python `int()`
truncates, which on these non-negative products is the floor. -/
def estimate_impact (r : Row) : Int :=
  let ci := lowerStr (pyStr (rowGet r "ci_type" (.s "")))
  let priority := pyStr (rowGet r "priority" (.s ""))
  ⌊qMul (impactBase ci) (impactMult priority)⌋

/-- Stage `estimate_user_impact` (transform.py 352-398). -/
def estimate_user_impact (t : Table) : Table :=
  assignCol t "userImpactEstimate" (fun r => .i (estimate_impact r))

/-- The configuration values `transform_incidents` draws from `Config`:
`categorization.rules` and `sla.rules`. -/
structure TransformConfig where
  catRules : Rules
  slaRules : SlaRules

/-- The values `Config().get(...)` returns when no config file is
present (config.py `_get_default_config`). -/
def defaultConfig : TransformConfig :=
  { catRules := configCatRules, slaRules := defaultSlaRules }

/-- Pipeline `transform_incidents` (transform.py 19-86) with the default
transformation list `['normalize', 'dates', 'status', 'categorization',
'durations', 'sla', 'impact']`; `df.empty` (either axis of length zero)
returns the input unchanged. -/
def transform_incidents (cfg : TransformConfig) (now : Int) (t : Table) : Table :=
  if t.rows.isEmpty || t.cols.isEmpty then t
  else
    estimate_user_impact
      (calculate_sla_breach cfg.slaRules
        (calculate_durations now
          (add_categorization cfg.catRules
            (add_status_fields
              (parse_dates
                (normalize_columns t))))))

/-- Python `round(x, 2)` rounds half to even; the helper rounds a
rational to an integer that way. -/
def roundHalfEven (x : ℚ) : ℤ :=
  let f := ⌊x⌋
  let frac := qSub x (intToQ f)
  if frac < mkRat 1 2 then f
  else if mkRat 1 2 < frac then f + 1
  else if f % 2 = 0 then f else f + 1

/-- Python `round(x, 2)` on the rational model. -/
def round2 (x : ℚ) : ℚ :=
  qDivNat (intToQ (roundHalfEven (qMul x 100))) 100

/-- Distinct values in order of first appearance, as `pandas.unique`. -/
def uniqueVals (vs : List Value) : List Value :=
  vs.foldl (fun acc v => if v ∈ acc then acc else acc ++ [v]) []

/-- Stable insertion into a list sorted by the strict order `lt`:
the new element goes before the first strictly greater element. -/
def insertSorted {α : Type} (lt : α → α → Bool) (a : α) : List α → List α
  | [] => [a]
  | b :: bs => if lt a b then a :: b :: bs else b :: insertSorted lt a bs

/-- Stable insertion sort by the strict order `lt` (ties keep their
original relative order; pandas does not promise a tie order, so any
deterministic choice models it). -/
def sortByStable {α : Type} (lt : α → α → Bool) (l : List α) : List α :=
  l.foldr (insertSorted lt) []

/-- Numeric comparison of a cell against a rational: `cell > x` with
pandas semantics, false on NaN and non-numbers. -/
def valGtQ (v : Value) (x : ℚ) : Bool :=
  match v with
  | .i n => decide (x < intToQ n)
  | .q n => decide (x < n)
  | _ => false

/-- The per-priority SLA breakdown entry of `calculate_sla_metrics`. -/
structure PrioritySlaStats where
  total : Nat
  breached : Nat
  met : Nat
  breach_rate_pct : ℚ
deriving DecidableEq, Repr

/-- Result structure of `calculate_sla_metrics` (metrics.py 37-43). -/
structure SlaMetrics where
  total_resolved : Nat
  sla_breached : Nat
  sla_met : Nat
  breach_rate_pct : ℚ
  by_priority : List (String × PrioritySlaStats)
deriving DecidableEq, Repr

/-- The zeroed metrics dict `calculate_sla_metrics` initializes and
returns on missing-column or no-resolved-row input. -/
def zeroSlaMetrics : SlaMetrics :=
  { total_resolved := 0, sla_breached := 0, sla_met := 0,
    breach_rate_pct := 0, by_priority := [] }

/-- Aggregator `calculate_sla_metrics` (metrics.py 17-88). Restricts to
rows with a non-null `resolutionTimeHrs`; breach counts read the
`slaBreach` column; the unused `sla_rules` parameter of the source is
omitted. -/
def calculate_sla_metrics (t : Table) : SlaMetrics :=
  if "resolutionTimeHrs" ∉ t.cols then zeroSlaMetrics
  else
    let resolved := t.rows.filter (fun r => notna (rowGet r "resolutionTimeHrs" .na))
    if resolved.isEmpty then zeroSlaMetrics
    else
      let total := resolved.length
      let hasBreach := "slaBreach" ∈ t.cols
      let breached :=
        if hasBreach then (resolved.filter (fun r => valBool (rowGet r "slaBreach" .na))).length else 0
      let met :=
        if hasBreach then (resolved.filter (fun r => !valBool (rowGet r "slaBreach" .na))).length else 0
      let rate := if hasBreach then round2 (qMul (qDivNat (natToQ breached) total) 100) else 0
      let byP :=
        if "priority" ∈ t.cols ∧ hasBreach then
          ((uniqueVals (resolved.map (fun r => rowGet r "priority" .na))).filter notna).map
            (fun pv =>
              let pdf := resolved.filter (fun r => decide (rowGet r "priority" .na = pv))
              let ptot := pdf.length
              let pbr := (pdf.filter (fun r => valBool (rowGet r "slaBreach" .na))).length
              (pyStr pv,
                { total := ptot, breached := pbr, met := ptot - pbr,
                  breach_rate_pct :=
                    if 0 < ptot then round2 (qMul (qDivNat (natToQ pbr) ptot) 100) else 0 }))
        else []
      { total_resolved := total, sla_breached := breached, sla_met := met,
        breach_rate_pct := rate, by_priority := byP }

/-- Result structure of `calculate_backlog_metrics` (metrics.py
194-206); the five `by_age` buckets are the five count fields, and
`avg_age_days` is a cell because the source stores `0.0` initially and
possibly NaN after a mean over no valid ages. -/
structure BacklogMetrics where
  snapshot_date : Int
  total_backlog : Nat
  by_priority : List (String × Nat)
  less_than_24h : Nat
  from_24h_to_3days : Nat
  from_3days_to_1week : Nat
  from_1week_to_1month : Nat
  more_than_1month : Nat
  avg_age_days : Value
deriving DecidableEq, Repr

/-- The zeroed backlog metrics dict for a given snapshot time. -/
def zeroBacklogMetrics (snap : Int) : BacklogMetrics :=
  { snapshot_date := snap, total_backlog := 0, by_priority := [],
    less_than_24h := 0, from_24h_to_3days := 0, from_3days_to_1week := 0,
    from_1week_to_1month := 0, more_than_1month := 0, avg_age_days := .q 0 }

/-- Age in days of one active row at the snapshot time, as
`(pd.Timestamp(snapshot) - openedDate).dt.total_seconds()/(3600*24)`
computes it; `none` is the NaN a missing/unparsed `openedDate` gives. -/
def backlogAgeDays (snap : Int) (r : Row) : Option ℚ :=
  match rowGet r "openedDate" .na with
  | .t x => some (mkRat (snap - x) 86400)
  | _ => none

/-- Bucket predicate `current_age_days < 1` (metrics.py 230). -/
def bucketLt24h (a : ℚ) : Bool := decide (a < 1)

/-- Bucket predicate `1 <= current_age_days < 3` (metrics.py 231-233). -/
def bucket24hTo3d (a : ℚ) : Bool := decide (1 ≤ a ∧ a < 3)

/-- Bucket predicate `3 <= current_age_days < 7` (metrics.py 234-236). -/
def bucket3dTo1w (a : ℚ) : Bool := decide (3 ≤ a ∧ a < 7)

/-- Bucket predicate `7 <= current_age_days < 30` (metrics.py 237-239). -/
def bucket1wTo1mo (a : ℚ) : Bool := decide (7 ≤ a ∧ a < 30)

/-- Bucket predicate `current_age_days >= 30` (metrics.py 240). -/
def bucketGe1mo (a : ℚ) : Bool := decide (30 ≤ a)

/-- Aggregator `calculate_backlog_metrics` (metrics.py 175-253).
Bucket comparisons against NaN ages are false in pandas, which the
`filterMap` over defined ages reproduces; the mean skips NaN and itself
becomes NaN when no age is defined. -/
def calculate_backlog_metrics (snap : Int) (t : Table) : BacklogMetrics :=
  if "isActive" ∉ t.cols then zeroBacklogMetrics snap
  else
    let active := t.rows.filter (fun r => valBool (rowGet r "isActive" .na))
    if active.isEmpty then zeroBacklogMetrics snap
    else
      let total := active.length
      let byP :=
        if "priority" ∈ t.cols then
          ((uniqueVals (active.map (fun r => rowGet r "priority" .na))).filter notna).map
            (fun pv =>
              (pyStr pv, (active.filter (fun r => decide (rowGet r "priority" .na = pv))).length))
        else []
      if "openedDate" ∈ t.cols then
        let ages := active.filterMap (backlogAgeDays snap)
        let avg : Value :=
          if ages.isEmpty then .na else .q (round2 (qDivNat (qSum ages) ages.length))
        { snapshot_date := snap, total_backlog := total, by_priority := byP,
          less_than_24h := (ages.filter bucketLt24h).length,
          from_24h_to_3days := (ages.filter bucket24hTo3d).length,
          from_3days_to_1week := (ages.filter bucket3dTo1w).length,
          from_1week_to_1month := (ages.filter bucket1wTo1mo).length,
          more_than_1month := (ages.filter bucketGe1mo).length,
          avg_age_days := avg }
      else
        { snapshot_date := snap, total_backlog := total, by_priority := byP,
          less_than_24h := 0, from_24h_to_3days := 0, from_3days_to_1week := 0,
          from_1week_to_1month := 0, more_than_1month := 0, avg_age_days := .q 0 }

/-- Sorted copy of a list of rationals, ascending. -/
def sortedQ (xs : List ℚ) : List ℚ :=
  sortByStable (fun a b => decide (a < b)) xs

/-- Linear-interpolation quantile, as `Series.quantile` computes it on a
non-empty series. -/
def quantileQ (xs : List ℚ) (p : ℚ) : ℚ :=
  let srt := sortedQ xs
  let n := srt.length
  let pos := qMul p (intToQ ((n : Int) - 1))
  let lo := ⌊pos⌋.toNat
  let hi := ⌈pos⌉.toNat
  let a := srt.getD lo 0
  let c := srt.getD hi 0
  qAdd a (qMul (qSub pos (intToQ lo)) (qSub c a))

/-- Overall statistics block of `analyze_resolution_times`. -/
structure OverallResStats where
  count : Nat
  mean_hrs : ℚ
  median_hrs : ℚ
  min_hrs : ℚ
  max_hrs : ℚ
  std_dev_hrs : ℚ
  percentile_90_hrs : ℚ
  percentile_95_hrs : ℚ
deriving DecidableEq, Repr

/-- Per-group statistics block of `analyze_resolution_times`. -/
structure GroupResStats where
  count : Nat
  mean_hrs : ℚ
  median_hrs : ℚ
deriving DecidableEq, Repr

/-- Result structure of `analyze_resolution_times` (metrics.py
109-113); `overall = none` is the empty dict of the degraded paths. -/
structure ResolutionAnalysis where
  overall : Option OverallResStats
  by_priority : List (String × GroupResStats)
  by_category : List (String × GroupResStats)
deriving DecidableEq, Repr

/-- The zeroed analysis dict of `analyze_resolution_times`. -/
def zeroResolutionAnalysis : ResolutionAnalysis :=
  { overall := none, by_priority := [], by_category := [] }

/-- Numeric cell contents of a column's values (the resolution times are
rationals after the pipeline). -/
def cellQ (v : Value) : ℚ :=
  match v with
  | .q x => x
  | .i x => intToQ x
  | _ => 0

/-- Per-group mean/median statistics over the rows whose column `key`
equals `pv`. -/
def groupStats (rows : List Row) (key : String) (pv : Value) : GroupResStats :=
  let times := (rows.filter (fun r => decide (rowGet r key .na = pv))).map
    (fun r => cellQ (rowGet r "resolutionTimeHrs" .na))
  { count := times.length,
    mean_hrs := round2 (qDivNat (qSum times) times.length),
    median_hrs := round2 (quantileQ times (mkRat 1 2)) }

/-- Aggregator `analyze_resolution_times` (metrics.py 91-172). The
sample standard deviation takes a real square root, which has no exact
rational value, so it is abstracted as the function argument `std`; all
other statistics are exact. Both group breakdowns are taken with the
source's default `by_priority=True, by_category=True`. -/
def analyze_resolution_times (std : List ℚ → ℚ) (t : Table) : ResolutionAnalysis :=
  if "resolutionTimeHrs" ∉ t.cols then zeroResolutionAnalysis
  else
    let resolved := t.rows.filter (fun r => notna (rowGet r "resolutionTimeHrs" .na))
    if resolved.isEmpty then zeroResolutionAnalysis
    else
      let times := resolved.map (fun r => cellQ (rowGet r "resolutionTimeHrs" .na))
      let srt := sortedQ times
      let overall : OverallResStats :=
        { count := times.length,
          mean_hrs := round2 (qDivNat (qSum times) times.length),
          median_hrs := round2 (quantileQ times (mkRat 1 2)),
          min_hrs := round2 (srt.getD 0 0),
          max_hrs := round2 (srt.getD (srt.length - 1) 0),
          std_dev_hrs := round2 (std times),
          percentile_90_hrs := round2 (quantileQ times (mkRat 9 10)),
          percentile_95_hrs := round2 (quantileQ times (mkRat 19 20)) }
      let byP :=
        if "priority" ∈ t.cols then
          ((uniqueVals (resolved.map (fun r => rowGet r "priority" .na))).filter notna).map
            (fun pv => (pyStr pv, groupStats resolved "priority" pv))
        else []
      let byC :=
        if "patternCategory" ∈ t.cols then
          ((uniqueVals (resolved.map (fun r => rowGet r "patternCategory" .na))).filter notna).map
            (fun pv => (pyStr pv, groupStats resolved "patternCategory" pv))
        else []
      { overall := some overall, by_priority := byP, by_category := byC }

/-- Severity label of `classify_reassignment_severity` (metrics.py
284-290). -/
def reassignSeverity (v : Value) : String :=
  if valGtQ v 5 then "Critical"
  else if valGtQ v 3 then "High"
  else "Moderate"

/-- Columns the reassignment report selects (metrics.py 298-299). -/
def reassignCols : List String :=
  ["number", "short_description", "priority", "assignment_group",
   "reassignment_count", "reassignment_severity"]

/-- Column projection, `df[[...]]` (the source assumes the selected
columns exist; absent ones are modelled as NaN cells). -/
def selectCols (t : Table) (cs : List String) : Table :=
  { cols := cs, rows := t.rows.map (fun r => cs.map (fun c => (c, rowGet r c .na))) }

/-- Aggregator `analyze_reassignments` (metrics.py 256-299), threshold
defaulting to 2 at the call boundary; returns an empty frame when the
count column is missing or nothing exceeds the threshold. -/
def analyze_reassignments (threshold : ℚ) (t : Table) : Table :=
  if "reassignment_count" ∉ t.cols then { cols := [], rows := [] }
  else
    let excessive := t.rows.filter (fun r => valGtQ (rowGet r "reassignment_count" .na) threshold)
    if excessive.isEmpty then { cols := [], rows := [] }
    else
      selectCols
        (assignCol { cols := t.cols, rows := excessive } "reassignment_severity"
          (fun r => .s (reassignSeverity (rowGet r "reassignment_count" .na))))
        reassignCols

/-- Quality check `detect_priority_misclassification` (quality.py
49-65): critical priority (case-sensitive containment) resolved in more
than 24 hours. -/
def detect_priority_misclassification (t : Table) : Table :=
  let t1 := assignCol t "quality_priority_mismatch" (fun _ => .b false)
  if "priority" ∈ t1.cols ∧ "resolutionTimeHrs" ∈ t1.cols then
    maskedAssign t1 "quality_priority_mismatch"
      (fun r => strContains (pyStr (rowGet r "priority" .na)) "1 - Critical"
        && valGtQ (rowGet r "resolutionTimeHrs" .na) 24)
      (fun _ => .b true)
  else t1

/-- Quality check `detect_on_hold_abuse` (quality.py 68-81). -/
def detect_on_hold_abuse (thresholdHours : ℚ) (t : Table) : Table :=
  let t1 := assignCol t "quality_on_hold_abuse" (fun _ => .b false)
  if "state" ∈ t1.cols ∧ "ageHrs" ∈ t1.cols then
    maskedAssign t1 "quality_on_hold_abuse"
      (fun r => decide (rowGet r "state" .na = .s "On Hold")
        && valGtQ (rowGet r "ageHrs" .na) thresholdHours)
      (fun _ => .b true)
  else t1

/-- Quality check `check_description_quality` (quality.py 84-95). -/
def check_description_quality (minLength : Nat) (t : Table) : Table :=
  let t1 := assignCol t "quality_poor_description" (fun _ => .b false)
  if "short_description" ∈ t1.cols then
    maskedAssign t1 "quality_poor_description"
      (fun r => decide ((pyStr (rowGet r "short_description" .na)).data.length < minLength))
      (fun _ => .b true)
  else t1

/-- Quality check `flag_excessive_reassignments` (quality.py 98-108). -/
def flag_excessive_reassignments (threshold : ℚ) (t : Table) : Table :=
  let t1 := assignCol t "quality_excessive_reassignments" (fun _ => .b false)
  if "reassignment_count" ∈ t1.cols then
    maskedAssign t1 "quality_excessive_reassignments"
      (fun r => valGtQ (rowGet r "reassignment_count" .na) threshold)
      (fun _ => .b true)
  else t1

/-- Aggregator `check_incident_quality` (quality.py 15-46): the four
checks at their default thresholds, then `quality_issues_count` as the
row-wise sum (count of true flags) over the `quality_`-prefixed columns. -/
def check_incident_quality (t : Table) : Table :=
  let t1 :=
    flag_excessive_reassignments 3
      (check_description_quality 20
        (detect_on_hold_abuse 72
          (detect_priority_misclassification t)))
  let qcols := t1.cols.filter (fun c => charsLeadEq "quality_".data c.data)
  assignCol t1 "quality_issues_count"
    (fun r => .i ((qcols.filter (fun c => valBool (rowGet r c .na))).length))

/-- Sort key for ordering grouped values: their Python string form
(group keys of this dataset are strings). -/
def valKey (v : Value) : String := pyStr v

/-- Model of `Series.value_counts()`: NaN dropped, counts descending
(pandas leaves the tie order unspecified; first appearance is kept
here). -/
def value_counts (vs : List Value) : List (Value × Nat) :=
  let defined := vs.filter notna
  let uniq := uniqueVals defined
  let counted := uniq.map (fun v => (v, (defined.filter (fun w => decide (w = v))).length))
  sortByStable (fun a b => decide (b.2 < a.2)) counted

/-- Numeric key used by `sort_index()` over the integer-indexed
temporal distributions. -/
def valNumKey (v : Value) : ℚ :=
  match v with
  | .i x => intToQ x
  | .q x => x
  | .t x => intToQ x
  | _ => 0

/-- Model of `value_counts().sort_index()` for integer indices. -/
def value_counts_sorted (vs : List Value) : List (Value × Nat) :=
  sortByStable (fun a b => decide (valNumKey a.1 < valNumKey b.1)) (value_counts vs)

/-- Strict ascending order on group-key pairs (groupby sorts keys). -/
def pairLt (a b : Value × Value) : Bool :=
  valKey a.1 < valKey b.1 || (valKey a.1 == valKey b.1 && valKey a.2 < valKey b.2)

/-- Aggregator `find_recurring_issues` (patterns.py 55-84): group by the
`(patternCategory, cmdb_ci)` pair (groupby drops NaN keys and sorts the
remaining keys), keep groups of at least `minOcc`, order by count
descending. -/
def find_recurring_issues (minOcc : Nat) (t : Table) : List (Value × Value × Nat) :=
  if "patternCategory" ∈ t.cols ∧ "cmdb_ci" ∈ t.cols then
    let keys := t.rows.filterMap (fun r =>
      let c := rowGet r "patternCategory" .na
      let ci := rowGet r "cmdb_ci" .na
      if notna c && notna ci then some (c, ci) else none)
    let uniq := keys.foldl (fun acc v => if v ∈ acc then acc else acc ++ [v]) []
    let grouped := (sortByStable pairLt uniq).map
      (fun p => (p.1, p.2, (keys.filter (fun w => decide (w = p))).length))
    sortByStable (fun a b => decide (b.2.2 < a.2.2))
      (grouped.filter (fun p => decide (minOcc ≤ p.2.2)))
  else []

/-- Result structure of `analyze_patterns` (patterns.py 27-32); the two
temporal entries are present in `temporal_patterns` only when their
source column exists. -/
structure PatternAnalysis where
  category_distribution : List (Value × Nat)
  priority_distribution : List (Value × Nat)
  by_day_of_week : Option (List (Value × Nat))
  by_hour : Option (List (Value × Nat))
  recurring_issues : List (Value × Value × Nat)
deriving DecidableEq, Repr

/-- Row `i` of a table (`none` beyond the end). -/
def rowAt (t : Table) (i : Nat) : Option Row :=
  t.rows[i]?

/-- Cell of row `i`, column `k` (`none` when the row does not exist or
the row has no such key). -/
def cellAt (t : Table) (i : Nat) (k : String) : Option Value :=
  (rowAt t i).bind (fun r => lookup r k)

/-
Effect model of the call boundary. The Python stage functions assign
columns on the very DataFrame object the caller passed (`df[col] = ...`,
`df.loc[mask, col] = ...` mutate it in place); `normalize_columns`
rebinds its local name to the fresh frame `df.rename` returns, and
`transform_incidents` works on `df.copy()`, so those two leave the
caller's object untouched, as do the aggregators, which only read (or
copy) their input. Each `..._eff` function returns the pair (returned
value, the caller's table as it stands after the call).
-/

/-- Call effect of `transform_incidents`: works on `df.copy()` (line
56), so the caller's table survives unchanged. -/
def transform_incidents_eff (cfg : TransformConfig) (now : Int) (t : Table) : Table × Table :=
  (transform_incidents cfg now t, t)

/-- Call effect of `normalize_columns`: `df.rename` returns a new frame
and the function only rebinds its local name, so the argument is
unchanged. -/
def normalize_columns_eff (t : Table) : Table × Table :=
  (normalize_columns t, t)

/-- Call effect of `parse_dates`: `df[col] = pd.to_datetime(df[col])`
assigns on the caller's frame, so the argument becomes the result. -/
def parse_dates_eff (t : Table) : Table × Table :=
  (parse_dates t, parse_dates t)

/-- Call effect of `add_status_fields`: in-place column assignments. -/
def add_status_fields_eff (t : Table) : Table × Table :=
  (add_status_fields t, add_status_fields t)

/-- Call effect of `add_categorization`: in-place column assignment. -/
def add_categorization_eff (rules : Rules) (t : Table) : Table × Table :=
  (add_categorization rules t, add_categorization rules t)

/-- Call effect of `calculate_durations`: in-place `.loc` assignments. -/
def calculate_durations_eff (now : Int) (t : Table) : Table × Table :=
  (calculate_durations now t, calculate_durations now t)

/-- Call effect of `calculate_sla_breach`: in-place column assignments. -/
def calculate_sla_breach_eff (rules : SlaRules) (t : Table) : Table × Table :=
  (calculate_sla_breach rules t, calculate_sla_breach rules t)

/-- Call effect of `estimate_user_impact`: in-place column assignment. -/
def estimate_user_impact_eff (t : Table) : Table × Table :=
  (estimate_user_impact t, estimate_user_impact t)

/-- Call effect of `calculate_sla_metrics`: reads a `.copy()`, argument
unchanged. -/
def calculate_sla_metrics_eff (t : Table) : SlaMetrics × Table :=
  (calculate_sla_metrics t, t)

/-- Call effect of `calculate_backlog_metrics`: reads a `.copy()`,
argument unchanged. -/
def calculate_backlog_metrics_eff (snap : Int) (t : Table) : BacklogMetrics × Table :=
  (calculate_backlog_metrics snap t, t)

/-- Call effect of `analyze_resolution_times`: reads a `.copy()`,
argument unchanged. -/
def analyze_resolution_times_eff (std : List ℚ → ℚ) (t : Table) : ResolutionAnalysis × Table :=
  (analyze_resolution_times std t, t)

/-- Call effect of `analyze_reassignments`: filters into a `.copy()`,
argument unchanged. -/
def analyze_reassignments_eff (threshold : ℚ) (t : Table) : Table × Table :=
  (analyze_reassignments threshold t, t)

/-- Call effect of `check_incident_quality`: works on `df.copy()`,
argument unchanged. -/
def check_incident_quality_eff (t : Table) : Table × Table :=
  (check_incident_quality t, t)

/-- Aggregator `analyze_patterns` (patterns.py 15-52). -/
def analyze_patterns (t : Table) : PatternAnalysis :=
  { category_distribution :=
      if "patternCategory" ∈ t.cols then
        value_counts (t.rows.map (fun r => rowGet r "patternCategory" .na))
      else [],
    priority_distribution :=
      if "priority" ∈ t.cols then
        value_counts (t.rows.map (fun r => rowGet r "priority" .na))
      else [],
    by_day_of_week :=
      if "dayOfWeek" ∈ t.cols then
        some (value_counts_sorted (t.rows.map (fun r => rowGet r "dayOfWeek" .na)))
      else none,
    by_hour :=
      if "hourOfDay" ∈ t.cols then
        some (value_counts_sorted (t.rows.map (fun r => rowGet r "hourOfDay" .na)))
      else none,
    recurring_issues := find_recurring_issues 3 t }

/-- Call effect of `analyze_patterns`: reads only, argument unchanged. -/
def analyze_patterns_eff (t : Table) : PatternAnalysis × Table :=
  (analyze_patterns t, t)

/-- The derived columns the pipeline adds (spec section 3, "Enriched
record"). -/
def derivedCols : List String :=
  ["isActive", "isResolved", "isHighImpact", "isCritical", "patternCategory",
   "resolutionTimeHrs", "resolutionTimeDays", "ageHrs", "ageDays",
   "slaBreach", "slaMarginHrs", "userImpactEstimate"]

/-
Concrete tables used by counterexamples and witnesses.
-/

/-- Example incident (a) of the spec scenario: critical, opened
2025-01-01 00:00:00, resolved ten hours later. -/
def exRowA : Row :=
  [("number", .s "INC001"), ("priority", .s "1 - Critical"), ("state", .s "Resolved"),
   ("opened_at", .s "2025-01-01 00:00:00"), ("resolved_at", .s "2025-01-01 10:00:00"),
   ("short_description", .s "WiFi access point down in building A"), ("description", .s "")]

/-- Example incident (b): moderate, resolved ten hours after opening. -/
def exRowB : Row :=
  [("number", .s "INC002"), ("priority", .s "3 - Moderate"), ("state", .s "Resolved"),
   ("opened_at", .s "2025-01-02 00:00:00"), ("resolved_at", .s "2025-01-02 10:00:00"),
   ("short_description", .s "server running slow"), ("description", .s "")]

/-- Example incident (c): no resolved timestamp, still in progress. -/
def exRowC : Row :=
  [("number", .s "INC003"), ("priority", .s "2 - High"), ("state", .s "In Progress"),
   ("opened_at", .s "2025-01-03 00:00:00"), ("resolved_at", .s ""),
   ("short_description", .s "printer broken"), ("description", .s "")]

/-- The three-incident example batch, in raw export column names. -/
def exTable : Table :=
  { cols := ["number", "priority", "state", "opened_at", "resolved_at",
             "short_description", "description"],
    rows := [exRowA, exRowB, exRowC] }

/-- Snapshot instant 2025-01-05 00:00:00 used when running the example
pipeline (only the age columns depend on it). -/
def exNow : Int := 1736035200

/-- A table whose single row is active but has an unparseable (hence
absent) opened timestamp. -/
def naOpenedTable : Table :=
  { cols := ["state", "isActive", "openedDate"],
    rows := [[("state", .s "New"), ("isActive", .b true), ("openedDate", .na)]] }

/-- One-row raw table with an active incident and a parseable opened
timestamp, for exercising the age columns. -/
def activeTable : Table :=
  { cols := ["state", "opened_at"],
    rows := [[("state", .s "New"), ("opened_at", .s "2025-01-01 00:00:00")]] }

/-- Epoch seconds of 2025-01-01 01:00:00. -/
def nowPlus1h : Int := 1735693200

/-- Epoch seconds of 2025-01-01 02:00:00. -/
def nowPlus2h : Int := 1735696800

/-- Three active rows aged half a day, exactly three days, and forty
days at snapshot 0, for exercising the bucket partition. -/
def bucketWitnessTable : Table :=
  { cols := ["isActive", "openedDate"],
    rows := [[("isActive", .b true), ("openedDate", .t (-43200))],
             [("isActive", .b true), ("openedDate", .t (-259200))],
             [("isActive", .b true), ("openedDate", .t (-3456000))]] }

/-- Sum of the five age-bucket counts of a backlog metrics structure. -/
def bucketSum (m : BacklogMetrics) : Nat :=
  m.less_than_24h + m.from_24h_to_3days + m.from_3days_to_1week
    + m.from_1week_to_1month + m.more_than_1month

/-
Theorems. First the bridge lemmas for the kernel-evaluable arithmetic
helpers, then access lemmas for the table model, then one theorem per
claim (with witnesses and counterexamples).
-/

theorem intToQ_eq (n : Int) : intToQ n = (n : ℚ) := by
  simp [intToQ, Rat.mkRat_eq_div]

theorem natToQ_eq (n : Nat) : natToQ n = (n : ℚ) := by
  simp [natToQ, Rat.mkRat_eq_div]

theorem qAdd_eq (a b : ℚ) : qAdd a b = a + b := by
  rw [qAdd, Rat.mkRat_eq_div]
  have ha : ((a.den : ℚ)) ≠ 0 := Nat.cast_ne_zero.mpr a.den_nz
  have hb : ((b.den : ℚ)) ≠ 0 := Nat.cast_ne_zero.mpr b.den_nz
  conv_rhs => rw [← Rat.num_div_den a, ← Rat.num_div_den b]
  push_cast
  field_simp

theorem qSub_eq (a b : ℚ) : qSub a b = a - b := by
  rw [qSub, Rat.mkRat_eq_div]
  have ha : ((a.den : ℚ)) ≠ 0 := Nat.cast_ne_zero.mpr a.den_nz
  have hb : ((b.den : ℚ)) ≠ 0 := Nat.cast_ne_zero.mpr b.den_nz
  conv_rhs => rw [← Rat.num_div_den a, ← Rat.num_div_den b]
  push_cast
  field_simp
  ring

theorem qMul_eq (a b : ℚ) : qMul a b = a * b := by
  rw [qMul, Rat.mkRat_eq_div]
  have ha : ((a.den : ℚ)) ≠ 0 := Nat.cast_ne_zero.mpr a.den_nz
  have hb : ((b.den : ℚ)) ≠ 0 := Nat.cast_ne_zero.mpr b.den_nz
  conv_rhs => rw [← Rat.num_div_den a, ← Rat.num_div_den b]
  push_cast
  field_simp

theorem qDivNat_eq (a : ℚ) (n : Nat) : qDivNat a n = a / (n : ℚ) := by
  rcases Nat.eq_zero_or_pos n with h | h
  · subst h
    simp [qDivNat, mkRat]
  · rw [qDivNat, Rat.mkRat_eq_div]
    have ha : ((a.den : ℚ)) ≠ 0 := Nat.cast_ne_zero.mpr a.den_nz
    have hn : ((n : ℚ)) ≠ 0 := Nat.cast_ne_zero.mpr (Nat.pos_iff_ne_zero.mp h)
    conv_rhs => rw [← Rat.num_div_den a]
    push_cast
    field_simp

theorem qSum_eq (l : List ℚ) : qSum l = l.sum := by
  induction l with
  | nil => rfl
  | cons a as ih => simp [qSum, List.foldr] at ih ⊢; rw [qAdd_eq, ih]


theorem isna_iff (v : Value) : isna v = true ↔ v = .na := by
  cases v <;> simp [isna]

theorem lookup_rowSet (r : Row) (k : String) (v : Value) (k2 : String) :
    lookup (rowSet r k v) k2 = if k = k2 then some v else lookup r k2 := by
  induction r with
  | nil => simp [rowSet, lookup]
  | cons p rest ih =>
    obtain ⟨a, b⟩ := p
    by_cases hak : a = k
    · subst hak
      by_cases hk2 : a = k2 <;> simp [rowSet, lookup, hk2]
    · by_cases hak2 : a = k2
      · subst hak2
        have : ¬ k = a := fun h => hak h.symm
        simp [rowSet, lookup, hak, this]
      · simp [rowSet, lookup, hak, hak2, ih]

theorem mem_addCol (cs : List String) (c x : String) :
    x ∈ addCol cs c ↔ x ∈ cs ∨ x = c := by
  by_cases h : c ∈ cs
  · simp only [addCol, if_pos h]
    constructor
    · exact Or.inl
    · rintro (hx | rfl)
      · exact hx
      · exact h
  · simp [addCol, if_neg h]

theorem rowAt_assignCol (t : Table) (c : String) (f : Row → Value) (i : Nat) :
    rowAt (assignCol t c f) i = (rowAt t i).map (fun r => rowSet r c (f r)) := by
  simp [rowAt, assignCol, List.getElem?_map]

theorem rowAt_maskedAssign (t : Table) (c : String) (mask : Row → Bool) (f : Row → Value) (i : Nat) :
    rowAt (maskedAssign t c mask f) i =
      (rowAt t i).map (fun r =>
        if mask r then rowSet r c (f r)
        else if c ∈ t.cols then r else rowSet r c .na) := by
  simp [rowAt, maskedAssign, List.getElem?_map]

/-- Cell access through `assignCol` at a different column. -/
theorem cellAt_assignCol_ne (t : Table) (c : String) (f : Row → Value) (i : Nat) (k : String)
    (h : c ≠ k) : cellAt (assignCol t c f) i k = cellAt t i k := by
  simp only [cellAt, rowAt_assignCol]
  cases rowAt t i with
  | none => rfl
  | some r => simp [lookup_rowSet, h]

/-- Cell access through `assignCol` at the assigned column. -/
theorem cellAt_assignCol_self (t : Table) (c : String) (f : Row → Value) (i : Nat) (r : Row)
    (h : rowAt t i = some r) : cellAt (assignCol t c f) i c = some (f r) := by
  simp [cellAt, rowAt_assignCol, h, lookup_rowSet]

/-- Cell access through `maskedAssign` at a different column. -/
theorem cellAt_maskedAssign_ne (t : Table) (c : String) (mask : Row → Bool) (f : Row → Value)
    (i : Nat) (k : String) (h : c ≠ k) :
    cellAt (maskedAssign t c mask f) i k = cellAt t i k := by
  simp only [cellAt, rowAt_maskedAssign]
  cases rowAt t i with
  | none => rfl
  | some r =>
    by_cases hm : mask r
    · simp [hm, lookup_rowSet, h]
    · by_cases hc : c ∈ t.cols <;> simp [hm, hc, lookup_rowSet, h]

/-- Cell access through `maskedAssign` at the assigned column. -/
theorem cellAt_maskedAssign_self (t : Table) (c : String) (mask : Row → Bool) (f : Row → Value)
    (i : Nat) (r : Row) (h : rowAt t i = some r) :
    cellAt (maskedAssign t c mask f) i c =
      (if mask r then some (f r) else if c ∈ t.cols then lookup r c else some .na) := by
  by_cases hm : mask r
  · simp [cellAt, rowAt_maskedAssign, h, hm, lookup_rowSet]
  · by_cases hc : c ∈ t.cols <;> simp [cellAt, rowAt_maskedAssign, h, hm, hc, lookup_rowSet]

/-- Rows survive `assignCol` positionally. -/
theorem rowAt_assignCol_isSome (t : Table) (c : String) (f : Row → Value) (i : Nat) (r : Row)
    (h : rowAt t i = some r) : rowAt (assignCol t c f) i = some (rowSet r c (f r)) := by
  simp [rowAt_assignCol, h]

/-- Rows survive `maskedAssign` positionally. -/
theorem rowAt_maskedAssign_isSome (t : Table) (c : String) (mask : Row → Bool) (f : Row → Value)
    (i : Nat) (r : Row) (h : rowAt t i = some r) :
    rowAt (maskedAssign t c mask f) i =
      some (if mask r then rowSet r c (f r) else if c ∈ t.cols then r else rowSet r c .na) := by
  simp [rowAt_maskedAssign, h]

/-- Claim C1: for every row of the enriched table, when
`resolutionTimeHrs` is absent — which is what the Duration Calculator
leaves on any row missing either parsed timestamp (second conjunct, for
tables that do not already carry a resolution-time column) — the SLA
Evaluator writes `slaBreach = false` and an absent `slaMarginHrs`,
regardless of the row's priority, state, or age. -/
theorem c1_sla_false_without_resolution :
    (∀ (rules : SlaRules) (t : Table) (i : Nat) (r : Row),
        rowAt t i = some r →
        rowGet r "resolutionTimeHrs" .na = .na →
        cellAt (calculate_sla_breach rules t) i "slaBreach" = some (.b false) ∧
        cellAt (calculate_sla_breach rules t) i "slaMarginHrs" = some .na) ∧
    (∀ (now : Int) (t : Table) (i : Nat) (r : Row),
        rowAt t i = some r →
        "resolutionTimeHrs" ∉ t.cols →
        (rowGet r "openedDate" .na = .na ∨ rowGet r "resolvedDate" .na = .na) →
        cellAt (calculate_durations now t) i "resolutionTimeHrs" = some .na) := by
  constructor
  · intro rules t i r hrow hna
    rw [rowGet] at hna
    constructor <;>
      simp [calculate_sla_breach, cellAt, rowAt_assignCol, hrow, lookup_rowSet,
        check_sla_breach, calculate_sla_margin, rowGet, hna]
  · intro now t i r hrow hcols hdates
    have hmask : resolvedMask r = false := by
      rcases hdates with h | h <;> simp [resolvedMask, h, notna, isna]
    have hstep : cellAt (durationsResPart t) i "resolutionTimeHrs" = some .na := by
      rw [durationsResPart]
      by_cases hd : "resolvedDate" ∈ t.cols ∧ "openedDate" ∈ t.cols
      · rw [if_pos hd]
        rw [cellAt_maskedAssign_ne _ _ _ _ _ _ (by decide)]
        rw [cellAt_maskedAssign_self _ _ _ _ _ _ hrow, if_neg (by simp [hmask]),
          if_neg hcols]
      · rw [if_neg hd]
        rw [cellAt_assignCol_ne _ _ _ _ _ (by decide)]
        obtain ⟨r1, hr1⟩ : ∃ r1, rowAt t i = some r1 := ⟨r, hrow⟩
        rw [cellAt_assignCol_self _ _ _ _ _ hr1]
    rw [calculate_durations, durationsAgePart]
    by_cases ho : "openedDate" ∈ (durationsResPart t).cols
    · rw [if_pos ho]
      rw [cellAt_maskedAssign_ne _ _ _ _ _ _ (by decide),
        cellAt_maskedAssign_ne _ _ _ _ _ _ (by decide)]
      exact hstep
    · rw [if_neg ho]
      rw [cellAt_assignCol_ne _ _ _ _ _ (by decide),
        cellAt_assignCol_ne _ _ _ _ _ (by decide)]
      exact hstep

/-- Witness for C1 at a concrete unresolved row: both hypotheses hold
and both conclusions evaluate. -/
theorem c1_witness :
    cellAt (calculate_sla_breach defaultSlaRules naOpenedTable) 0 "slaBreach" = some (.b false) ∧
    cellAt (calculate_sla_breach defaultSlaRules naOpenedTable) 0 "slaMarginHrs" = some .na :=
  c1_sla_false_without_resolution.1 defaultSlaRules naOpenedTable 0
    [("state", .s "New"), ("isActive", .b true), ("openedDate", .na)]
    (by decide) (by decide)

theorem rulesFind_eq_none (rules : SlaRules) (p : String)
    (h : ∀ q ∈ rules, q.1 ≠ p) : rulesFind rules p = none := by
  induction rules with
  | nil => rfl
  | cons q rest ih =>
    have hq : q.1 ≠ p := h q (List.mem_cons_self q rest)
    rw [rulesFind]
    rw [if_neg hq]
    exact ih (fun q2 hq2 => h q2 (List.mem_cons_of_mem q hq2))

/-- Claim C7: a row with a defined resolution time whose priority value
is present but is no key of the SLA rule mapping gets the default
72-hour threshold: breach iff the resolution time exceeds 72 hours, and
margin 72 minus the resolution time. (No error can be raised: the
evaluator is a total function of the row.) -/
theorem c7_unknown_priority_falls_back_to_72 (rules : SlaRules) (t : Table) (i : Nat)
    (r : Row) (x : ℚ) (p : String)
    (hrow : rowAt t i = some r)
    (hres : lookup r "resolutionTimeHrs" = some (.q x))
    (hpr : lookup r "priority" = some (.s p))
    (hunk : ∀ q ∈ rules, q.1 ≠ p) :
    cellAt (calculate_sla_breach rules t) i "slaBreach" = some (.b (decide (x > 72))) ∧
    cellAt (calculate_sla_breach rules t) i "slaMarginHrs" = some (.q (72 - x)) := by
  have hfind := rulesFind_eq_none rules p hunk
  have hsub : qSub 72 x = 72 - x := qSub_eq 72 x
  constructor <;>
    simp [calculate_sla_breach, cellAt, rowAt_assignCol, hrow, lookup_rowSet,
      check_sla_breach, calculate_sla_margin, rowGet, hres, hpr, slaThreshold,
      hfind, hsub, gt_iff_lt]

/-- Witness for C7: a resolution time of 100 hours with the unknown
priority label `P9` under the default rules breaches (100 > 72) with
margin −28. -/
theorem c7_witness :
    cellAt (calculate_sla_breach defaultSlaRules
      ⟨["resolutionTimeHrs", "priority"],
       [[("resolutionTimeHrs", .q 100), ("priority", .s "P9")]]⟩) 0 "slaBreach"
      = some (.b (decide ((100 : ℚ) > 72))) ∧
    cellAt (calculate_sla_breach defaultSlaRules
      ⟨["resolutionTimeHrs", "priority"],
       [[("resolutionTimeHrs", .q 100), ("priority", .s "P9")]]⟩) 0 "slaMarginHrs"
      = some (.q (72 - 100)) :=
  c7_unknown_priority_falls_back_to_72 defaultSlaRules
    ⟨["resolutionTimeHrs", "priority"],
     [[("resolutionTimeHrs", .q 100), ("priority", .s "P9")]]⟩ 0
    [("resolutionTimeHrs", .q 100), ("priority", .s "P9")] 100 "P9"
    (by decide) (by decide) (by decide) (by decide)

/-- Claim C10: when the priority column is absent from the table (so no
row carries the key), `row.get('priority', '4 - Low')` supplies
`4 - Low`, whose default-rule threshold is 120 hours — not the 72-hour
unknown-priority fallback: breach iff resolution time exceeds 120, and
margin 120 minus the resolution time. -/
theorem c10_absent_priority_column_uses_low_threshold (t : Table) (i : Nat)
    (r : Row) (x : ℚ)
    (hrow : rowAt t i = some r)
    (hcols : "priority" ∉ t.cols)
    (hpr : lookup r "priority" = none)
    (hres : lookup r "resolutionTimeHrs" = some (.q x)) :
    cellAt (calculate_sla_breach defaultSlaRules t) i "slaBreach"
      = some (.b (decide (x > 120))) ∧
    cellAt (calculate_sla_breach defaultSlaRules t) i "slaMarginHrs"
      = some (.q (120 - x)) := by
  have hsub : qSub 120 x = 120 - x := qSub_eq 120 x
  have hthr : slaThreshold defaultSlaRules (.s "4 - Low") = 120 := by decide
  constructor <;>
    simp [calculate_sla_breach, cellAt, rowAt_assignCol, hrow, lookup_rowSet,
      check_sla_breach, calculate_sla_margin, rowGet, hres, hpr, hthr, hsub,
      gt_iff_lt]

/-- Witness for C10: a 200-hour resolution in a table without a
priority column breaches the 120-hour threshold with margin −80. -/
theorem c10_witness :
    cellAt (calculate_sla_breach defaultSlaRules
      ⟨["resolutionTimeHrs"], [[("resolutionTimeHrs", .q 200)]]⟩) 0 "slaBreach"
      = some (.b (decide ((200 : ℚ) > 120))) ∧
    cellAt (calculate_sla_breach defaultSlaRules
      ⟨["resolutionTimeHrs"], [[("resolutionTimeHrs", .q 200)]]⟩) 0 "slaMarginHrs"
      = some (.q (120 - 200)) :=
  c10_absent_priority_column_uses_low_threshold
    ⟨["resolutionTimeHrs"], [[("resolutionTimeHrs", .q 200)]]⟩ 0
    [("resolutionTimeHrs", .q 200)] 200
    (by decide) (by decide) (by decide) (by decide)

/-- Claim C2: the Categorizer assigns each row the first category, in
configured rule order, with a keyword contained in the lower-cased
joined description text; no match gives `"Other"`; when several
categories match, the earliest in the list wins (first conjunct, for an
arbitrary split of the rule list); and the example text "WiFi access
point down in building A" maps to `"WiFi/Wireless"` (not
`"Connectivity"`) under both default rule sets. -/
theorem c2_first_match_categorization :
    (∀ (pre : Rules) (c : String) (kws : List String) (rest : Rules) (text : String),
        (∀ p ∈ pre, anyKeyword p.2 text = false) →
        anyKeyword kws text = true →
        categorizeText (pre ++ (c, kws) :: rest) text = c) ∧
    (∀ (rules : Rules) (text : String),
        (∀ p ∈ rules, anyKeyword p.2 text = false) →
        categorizeText rules text = "Other") ∧
    (∀ (rules : Rules) (t : Table) (i : Nat) (r : Row),
        rowAt t i = some r →
        cellAt (add_categorization rules t) i "patternCategory"
          = some (.s (categorizeText rules (catText r)))) ∧
    cellAt (add_categorization defaultCatRules exTable) 0 "patternCategory"
      = some (.s "WiFi/Wireless") ∧
    cellAt (add_categorization configCatRules exTable) 0 "patternCategory"
      = some (.s "WiFi/Wireless") := by
  refine ⟨?_, ?_, ?_, by decide, by decide⟩
  · intro pre c kws rest text
    induction pre with
    | nil =>
      intro _ hm
      simp [categorizeText, hm]
    | cons p ps ih =>
      intro hpre hm
      obtain ⟨pc, pk⟩ := p
      have hp : anyKeyword pk text = false := hpre (pc, pk) (List.mem_cons_self _ _)
      rw [List.cons_append, categorizeText, if_neg (by simp [hp])]
      exact ih (fun q hq => hpre q (List.mem_cons_of_mem _ hq)) hm
  · intro rules text
    induction rules with
    | nil => intro _; rfl
    | cons p ps ih =>
      intro hall
      obtain ⟨pc, pk⟩ := p
      have hp : anyKeyword pk text = false := hall (pc, pk) (List.mem_cons_self _ _)
      rw [categorizeText, if_neg (by simp [hp])]
      exact ih (fun q hq => hall q (List.mem_cons_of_mem _ hq))
  · intro rules t i r hrow
    rw [add_categorization, cellAt_assignCol_self _ _ _ _ _ hrow]
    rfl

/-- Witness for C2: with an overlapping second rule that also matches,
the earlier rule still wins on concrete rules and text. -/
theorem c2_witness :
    categorizeText ([] ++ ("WiFi/Wireless", ["wifi"]) :: [("Connectivity", ["wifi", "network"])])
      "wifi access point down" = "WiFi/Wireless" :=
  c2_first_match_categorization.1 [] "WiFi/Wireless" ["wifi"]
    [("Connectivity", ["wifi", "network"])] "wifi access point down"
    (by decide) (by decide)

/-- Counterexample to C6 as stated: for `ciType = "printer"` and
`priority = "P1"` the claim's factor table says ×1.0 (the priority is
not Critical, High, or Low), predicting 15, but the source condition
`'1 - Critical' in priority or '1' in priority` fires on the bare
character `1`, so the code yields 15 × 2.0 = 30. -/
theorem c6_counterexample :
    estimate_impact [("ci_type", .s "printer"), ("priority", .s "P1")] = 30 ∧
    estimate_impact [("ci_type", .s "printer"), ("priority", .s "P1")] ≠ 15 := by
  constructor <;> decide

/-- Claim C6 as amended: `userImpactEstimate` is the truncation of the
ciType-substring base (server/firewall 100; access point/wifi/wireless
50; router/switch 75; printer 15; else 25) times the priority factor,
where the ×2.0 factor applies when the priority text contains
`1 - Critical` or contains the character `1` anywhere, then ×1.5 on
`2 - High`, ×0.5 on `4 - Low`, else ×1.0; and the function is
deterministic in (ciType, priority). -/
theorem c6_impact_estimate :
    (∀ (t : Table) (i : Nat) (r : Row), rowAt t i = some r →
        cellAt (estimate_user_impact t) i "userImpactEstimate"
          = some (.i (estimate_impact r))) ∧
    (∀ r : Row,
        estimate_impact r =
          ⌊impactBase (lowerStr (pyStr (rowGet r "ci_type" (.s ""))))
            * impactMult (pyStr (rowGet r "priority" (.s "")))⌋) ∧
    (∀ r1 r2 : Row,
        rowGet r1 "ci_type" (.s "") = rowGet r2 "ci_type" (.s "") →
        rowGet r1 "priority" (.s "") = rowGet r2 "priority" (.s "") →
        estimate_impact r1 = estimate_impact r2) ∧
    (impactBase "core server" = 100 ∧ impactBase "firewall" = 100 ∧
     impactBase "access point 3" = 50 ∧ impactBase "wifi" = 50 ∧
     impactBase "wireless ap" = 50 ∧ impactBase "router" = 75 ∧
     impactBase "switch" = 75 ∧ impactBase "printer" = 15 ∧
     impactBase "laptop" = 25) ∧
    (impactMult "1 - Critical" = 2 ∧ impactMult "P1" = 2 ∧
     impactMult "2 - High" = 3 / 2 ∧ impactMult "4 - Low" = 1 / 2 ∧
     impactMult "3 - Moderate" = 1) := by
  refine ⟨?_, ?_, ?_, by decide,
    ⟨by decide, by decide, ?_, ?_, by decide⟩⟩
  · intro t i r hrow
    rw [estimate_user_impact, cellAt_assignCol_self _ _ _ _ _ hrow]
  · intro r
    rw [estimate_impact, qMul_eq]
  · intro r1 r2 h1 h2
    rw [estimate_impact, estimate_impact, h1, h2]
  · rw [show (3 / 2 : ℚ) = mkRat 3 2 by norm_num [Rat.mkRat_eq_div]]
    decide
  · rw [show (1 / 2 : ℚ) = mkRat 1 2 by norm_num [Rat.mkRat_eq_div]]
    decide

/-- Witness for C6: determinism instantiated on two concrete rows that
agree on ciType and priority but differ elsewhere. -/
theorem c6_witness :
    estimate_impact [("number", .s "INC1"), ("ci_type", .s "switch"), ("priority", .s "2 - High")]
      = estimate_impact [("ci_type", .s "switch"), ("priority", .s "2 - High"), ("state", .s "New")] :=
  c6_impact_estimate.2.2.1
    [("number", .s "INC1"), ("ci_type", .s "switch"), ("priority", .s "2 - High")]
    [("ci_type", .s "switch"), ("priority", .s "2 - High"), ("state", .s "New")]
    (by decide) (by decide)

theorem bucket_exactly_one (a : ℚ) :
    (bucketLt24h a).toNat + (bucket24hTo3d a).toNat + (bucket3dTo1w a).toNat
      + (bucket1wTo1mo a).toNat + (bucketGe1mo a).toNat = 1 := by
  simp only [bucketLt24h, bucket24hTo3d, bucket3dTo1w, bucket1wTo1mo, bucketGe1mo]
  rcases lt_or_le a 1 with h1 | h1
  · simp [h1, not_le.mpr h1, not_le.mpr (show a < 3 by linarith),
      not_le.mpr (show a < 7 by linarith), not_le.mpr (show a < 30 by linarith)]
  rcases lt_or_le a 3 with h2 | h2
  · simp [not_lt.mpr h1, h1, h2, not_le.mpr h2,
      not_le.mpr (show a < 7 by linarith), not_le.mpr (show a < 30 by linarith)]
  rcases lt_or_le a 7 with h3 | h3
  · simp [not_lt.mpr (show 1 ≤ a by linarith), not_lt.mpr h2, h2, h3,
      not_le.mpr h3, not_le.mpr (show a < 30 by linarith)]
  rcases lt_or_le a 30 with h4 | h4
  · simp [not_lt.mpr (show 1 ≤ a by linarith), not_lt.mpr (show 3 ≤ a by linarith),
      not_lt.mpr h3, h3, h4, not_le.mpr h4]
  · simp [not_lt.mpr (show 1 ≤ a by linarith), not_lt.mpr (show 3 ≤ a by linarith),
      not_lt.mpr (show 7 ≤ a by linarith), not_lt.mpr h4, h4]

theorem bucket_filter_partition (l : List ℚ) :
    (l.filter bucketLt24h).length + (l.filter bucket24hTo3d).length
      + (l.filter bucket3dTo1w).length + (l.filter bucket1wTo1mo).length
      + (l.filter bucketGe1mo).length = l.length := by
  induction l with
  | nil => rfl
  | cons a as ih =>
    have h1 := bucket_exactly_one a
    simp only [List.filter_cons]
    cases hb1 : bucketLt24h a <;> cases hb2 : bucket24hTo3d a <;>
      cases hb3 : bucket3dTo1w a <;> cases hb4 : bucket1wTo1mo a <;>
      cases hb5 : bucketGe1mo a <;> simp_all <;> omega

theorem length_filterMap_eq_count {A B : Type} (f : A → Option B) (l : List A) :
    (l.filterMap f).length = (l.filter (fun x => (f x).isSome)).length := by
  induction l with
  | nil => rfl
  | cons a as ih =>
    cases hf : f a <;> simp [List.filterMap_cons, List.filter_cons, hf, ih]

/-- Counterexample to C4 as stated: a backlog with one active row whose
opened timestamp is absent (NaT) — its age is NaN, every bucket
comparison is false, and the row lands in no bucket, so the buckets sum
to 0 while the active set has size 1. -/
theorem c4_counterexample :
    (calculate_backlog_metrics 0 naOpenedTable).total_backlog = 1 ∧
    bucketSum (calculate_backlog_metrics 0 naOpenedTable) = 0 := by
  constructor <;> decide

/-- Claim C4 as amended: the five age buckets have half-open bounds —
ages of exactly 1, 3, 7, 30 days fall in the higher bucket — and they
partition the active rows whose opened timestamp is present; an active
row with an absent opened timestamp is counted in no bucket. -/
theorem c4_backlog_buckets_partition :
    (∀ a : ℚ, (bucketLt24h a).toNat + (bucket24hTo3d a).toNat + (bucket3dTo1w a).toNat
        + (bucket1wTo1mo a).toNat + (bucketGe1mo a).toNat = 1) ∧
    (bucketLt24h 1 = false ∧ bucket24hTo3d 1 = true ∧
     bucket24hTo3d 3 = false ∧ bucket3dTo1w 3 = true ∧
     bucket3dTo1w 7 = false ∧ bucket1wTo1mo 7 = true ∧
     bucket1wTo1mo 30 = false ∧ bucketGe1mo 30 = true) ∧
    (∀ (snap : Int) (t : Table),
        "isActive" ∈ t.cols → "openedDate" ∈ t.cols →
        bucketSum (calculate_backlog_metrics snap t) =
          ((t.rows.filter (fun r => valBool (rowGet r "isActive" .na))).filter
            (fun r => (backlogAgeDays snap r).isSome)).length) := by
  refine ⟨bucket_exactly_one, by decide, ?_⟩
  intro snap t h1 h2
  rw [calculate_backlog_metrics]
  rw [if_neg (show ¬ "isActive" ∉ t.cols from fun hc => hc h1)]
  by_cases hae : (t.rows.filter (fun r => valBool (rowGet r "isActive" .na))).isEmpty
  · rw [if_pos hae]
    rw [List.isEmpty_iff] at hae
    simp [bucketSum, zeroBacklogMetrics, hae]
  · rw [if_neg hae]
    rw [if_pos h2]
    rw [bucketSum]
    rw [bucket_filter_partition]
    rw [length_filterMap_eq_count]

/-- Witness for C4: the partition equality instantiated on a concrete
three-row backlog (ages 0.5, 3, 40 days), where both sides are 3. -/
theorem c4_witness :
    bucketSum (calculate_backlog_metrics 0 bucketWitnessTable) =
      ((bucketWitnessTable.rows.filter (fun r => valBool (rowGet r "isActive" .na))).filter
        (fun r => (backlogAgeDays 0 r).isSome)).length ∧
    bucketSum (calculate_backlog_metrics 0 bucketWitnessTable) = 3 :=
  ⟨c4_backlog_buckets_partition.2.2 0 bucketWitnessTable (by decide) (by decide),
   by decide⟩

/-- Claim C3: on the three-incident example batch under the default
configuration, incident (a) gets `resolutionTimeHrs = 10` and
`slaBreach = true`, (b) gets `slaBreach = false` (also 10 hours, against
the 72-hour Moderate threshold), (c) stays active with an absent
resolution time and `slaBreach = false`; and the SLA aggregator over the
enriched batch reports `total_resolved = 2`, `sla_breached = 1`,
`breach_rate_pct = 50.0`. -/
theorem c3_example_batch :
    cellAt (transform_incidents defaultConfig exNow exTable) 0 "resolutionTimeHrs" = some (.q 10) ∧
    cellAt (transform_incidents defaultConfig exNow exTable) 0 "slaBreach" = some (.b true) ∧
    cellAt (transform_incidents defaultConfig exNow exTable) 1 "resolutionTimeHrs" = some (.q 10) ∧
    cellAt (transform_incidents defaultConfig exNow exTable) 1 "slaBreach" = some (.b false) ∧
    cellAt (transform_incidents defaultConfig exNow exTable) 2 "isActive" = some (.b true) ∧
    cellAt (transform_incidents defaultConfig exNow exTable) 2 "resolutionTimeHrs" = some .na ∧
    cellAt (transform_incidents defaultConfig exNow exTable) 2 "slaBreach" = some (.b false) ∧
    (calculate_sla_metrics (transform_incidents defaultConfig exNow exTable)).total_resolved = 2 ∧
    (calculate_sla_metrics (transform_incidents defaultConfig exNow exTable)).sla_breached = 1 ∧
    (calculate_sla_metrics (transform_incidents defaultConfig exNow exTable)).breach_rate_pct = 50 := by
  refine ⟨by decide, by decide, by decide, by decide, by decide,
    by decide, by decide, by decide, by decide, by decide⟩

theorem rows_nil_assignCol (t : Table) (c : String) (f : Row → Value) (h : t.rows = []) :
    (assignCol t c f).rows = [] := by
  simp [assignCol, h]

theorem rows_nil_maskedAssign (t : Table) (c : String) (mask : Row → Bool) (f : Row → Value)
    (h : t.rows = []) : (maskedAssign t c mask f).rows = [] := by
  simp [maskedAssign, h]

theorem rows_nil_durationsResPart (t : Table) (h : t.rows = []) :
    (durationsResPart t).rows = [] := by
  rw [durationsResPart]
  split
  · exact rows_nil_maskedAssign _ _ _ _ (rows_nil_maskedAssign _ _ _ _ h)
  · exact rows_nil_assignCol _ _ _ (rows_nil_assignCol _ _ _ h)

theorem rows_nil_durationsAgePart (now : Int) (t : Table) (h : t.rows = []) :
    (durationsAgePart now t).rows = [] := by
  rw [durationsAgePart]
  split
  · exact rows_nil_maskedAssign _ _ _ _ (rows_nil_maskedAssign _ _ _ _ h)
  · exact rows_nil_assignCol _ _ _ (rows_nil_assignCol _ _ _ h)

theorem rows_nil_quality_checks (t : Table) (h : t.rows = []) :
    (flag_excessive_reassignments 3
      (check_description_quality 20
        (detect_on_hold_abuse 72
          (detect_priority_misclassification t)))).rows = [] := by
  have h1 : (detect_priority_misclassification t).rows = [] := by
    simp only [detect_priority_misclassification]
    split
    · exact rows_nil_maskedAssign _ _ _ _ (rows_nil_assignCol _ _ _ h)
    · exact rows_nil_assignCol _ _ _ h
  have h2 : (detect_on_hold_abuse 72 (detect_priority_misclassification t)).rows = [] := by
    simp only [detect_on_hold_abuse]
    split
    · exact rows_nil_maskedAssign _ _ _ _ (rows_nil_assignCol _ _ _ h1)
    · exact rows_nil_assignCol _ _ _ h1
  have h3 : (check_description_quality 20 (detect_on_hold_abuse 72
      (detect_priority_misclassification t))).rows = [] := by
    simp only [check_description_quality]
    split
    · exact rows_nil_maskedAssign _ _ _ _ (rows_nil_assignCol _ _ _ h2)
    · exact rows_nil_assignCol _ _ _ h2
  simp only [flag_excessive_reassignments]
  split
  · exact rows_nil_maskedAssign _ _ _ _ (rows_nil_assignCol _ _ _ h3)
  · exact rows_nil_assignCol _ _ _ h3

/-- Claim C9: every transformation stage and every aggregator accepts an
empty table (no rows): the pipeline returns it unchanged, each stage
returns a rowless table, and each aggregator returns its zeroed or empty
result structure. (All model functions are total, so "returns without
raising" holds by construction.) -/
theorem c9_empty_input_safe :
    (∀ (cfg : TransformConfig) (now : Int) (t : Table), t.rows = [] →
        transform_incidents cfg now t = t) ∧
    (∀ t : Table, t.rows = [] → (normalize_columns t).rows = []) ∧
    (∀ t : Table, t.rows = [] → (parse_dates t).rows = []) ∧
    (∀ t : Table, t.rows = [] → (add_status_fields t).rows = []) ∧
    (∀ (rules : Rules) (t : Table), t.rows = [] → (add_categorization rules t).rows = []) ∧
    (∀ (now : Int) (t : Table), t.rows = [] → (calculate_durations now t).rows = []) ∧
    (∀ (rules : SlaRules) (t : Table), t.rows = [] → (calculate_sla_breach rules t).rows = []) ∧
    (∀ t : Table, t.rows = [] → (estimate_user_impact t).rows = []) ∧
    (∀ t : Table, t.rows = [] → calculate_sla_metrics t = zeroSlaMetrics) ∧
    (∀ (snap : Int) (t : Table), t.rows = [] →
        calculate_backlog_metrics snap t = zeroBacklogMetrics snap) ∧
    (∀ (std : List ℚ → ℚ) (t : Table), t.rows = [] →
        analyze_resolution_times std t = zeroResolutionAnalysis) ∧
    (∀ (threshold : ℚ) (t : Table), t.rows = [] →
        analyze_reassignments threshold t = { cols := [], rows := [] }) ∧
    (∀ t : Table, t.rows = [] → (check_incident_quality t).rows = []) ∧
    (∀ t : Table, t.rows = [] →
        (analyze_patterns t).category_distribution = [] ∧
        (analyze_patterns t).priority_distribution = [] ∧
        (analyze_patterns t).recurring_issues = [] ∧
        ((analyze_patterns t).by_day_of_week = none ∨
          (analyze_patterns t).by_day_of_week = some []) ∧
        ((analyze_patterns t).by_hour = none ∨
          (analyze_patterns t).by_hour = some [])) := by
  refine ⟨?_, ?_, ?_, ?_, ?_, ?_, ?_, ?_, ?_, ?_, ?_, ?_, ?_, ?_⟩
  · intro cfg now t h
    simp [transform_incidents, h]
  · intro t h
    simp [normalize_columns, h]
  · intro t h
    simp [parse_dates, h]
  · intro t h
    simp [add_status_fields, h]
  · intro rules t h
    exact rows_nil_assignCol _ _ _ h
  · intro now t h
    exact rows_nil_durationsAgePart now _ (rows_nil_durationsResPart t h)
  · intro rules t h
    exact rows_nil_assignCol _ _ _ (rows_nil_assignCol _ _ _ h)
  · intro t h
    exact rows_nil_assignCol _ _ _ h
  · intro t h
    rw [calculate_sla_metrics]
    by_cases hc : "resolutionTimeHrs" ∈ t.cols
    · rw [if_neg (fun hn => hn hc)]
      simp [h]
    · rw [if_pos hc]
  · intro snap t h
    rw [calculate_backlog_metrics]
    by_cases hc : "isActive" ∈ t.cols
    · rw [if_neg (fun hn => hn hc)]
      simp [h]
    · rw [if_pos hc]
  · intro std t h
    rw [analyze_resolution_times]
    by_cases hc : "resolutionTimeHrs" ∈ t.cols
    · rw [if_neg (fun hn => hn hc)]
      simp [h]
    · rw [if_pos hc]
  · intro threshold t h
    rw [analyze_reassignments]
    by_cases hc : "reassignment_count" ∈ t.cols
    · rw [if_neg (fun hn => hn hc)]
      simp [h]
    · rw [if_pos hc]
  · intro t h
    exact rows_nil_assignCol _ _ _ (rows_nil_quality_checks t h)
  · intro t h
    refine ⟨?_, ?_, ?_, ?_, ?_⟩ <;>
      simp only [analyze_patterns] <;>
      [skip; skip; rw [find_recurring_issues]; skip; skip]
    · split <;> simp [value_counts, h, uniqueVals, sortByStable]
    · split <;> simp [value_counts, h, uniqueVals, sortByStable]
    · split
      · simp [h, sortByStable]
      · rfl
    · split <;>
        simp [value_counts_sorted, value_counts, h, uniqueVals, sortByStable]
    · split <;>
        simp [value_counts_sorted, value_counts, h, uniqueVals, sortByStable]

/-- Witness for C9: the pipeline and every aggregator evaluated on a
concrete empty table. -/
theorem c9_witness :
    transform_incidents defaultConfig 0 { cols := ["state"], rows := [] }
      = { cols := ["state"], rows := [] } ∧
    calculate_sla_metrics { cols := ["state"], rows := [] } = zeroSlaMetrics ∧
    calculate_backlog_metrics 0 { cols := ["state"], rows := [] } = zeroBacklogMetrics 0 ∧
    analyze_reassignments 2 { cols := ["state"], rows := [] } = { cols := [], rows := [] } ∧
    (check_incident_quality { cols := ["state"], rows := [] }).rows = [] :=
  ⟨c9_empty_input_safe.1 defaultConfig 0 _ rfl,
   c9_empty_input_safe.2.2.2.2.2.2.2.2.1 _ rfl,
   c9_empty_input_safe.2.2.2.2.2.2.2.2.2.1 0 _ rfl,
   c9_empty_input_safe.2.2.2.2.2.2.2.2.2.2.2.1 2 _ rfl,
   c9_empty_input_safe.2.2.2.2.2.2.2.2.2.2.2.2.1 _ rfl⟩

/-- Counterexample to C8 as stated: `parse_dates` assigns
`df[col] = pd.to_datetime(df[col])` on the very frame the caller
passed, so after the call the caller's table holds the parsed value,
not the string it had before. -/
theorem c8_counterexample :
    (parse_dates_eff
      { cols := ["openedDate"],
        rows := [[("openedDate", .s "2025-01-01 00:00:00")]] }).2 ≠
      { cols := ["openedDate"],
        rows := [[("openedDate", .s "2025-01-01 00:00:00")]] } := by
  decide

/-- Claim C8 as amended: `transform_incidents` (which copies first),
`normalize_columns` (whose `rename` returns a fresh frame), and every
aggregator leave the caller's table exactly as it was; the remaining
stage functions — `parse_dates`, `add_status_fields`,
`add_categorization`, `calculate_durations`, `calculate_sla_breach`,
`estimate_user_impact` — assign their derived columns on the caller's
frame in place, so after the call the caller's table equals the
returned table. -/
theorem c8_caller_table_effects :
    (∀ (cfg : TransformConfig) (now : Int) (t : Table),
        (transform_incidents_eff cfg now t).2 = t) ∧
    (∀ t : Table, (normalize_columns_eff t).2 = t) ∧
    (∀ t : Table, (calculate_sla_metrics_eff t).2 = t) ∧
    (∀ (snap : Int) (t : Table), (calculate_backlog_metrics_eff snap t).2 = t) ∧
    (∀ (std : List ℚ → ℚ) (t : Table), (analyze_resolution_times_eff std t).2 = t) ∧
    (∀ (threshold : ℚ) (t : Table), (analyze_reassignments_eff threshold t).2 = t) ∧
    (∀ t : Table, (check_incident_quality_eff t).2 = t) ∧
    (∀ t : Table, (analyze_patterns_eff t).2 = t) ∧
    (∀ t : Table, (parse_dates_eff t).2 = parse_dates t) ∧
    (∀ t : Table, (add_status_fields_eff t).2 = add_status_fields t) ∧
    (∀ (rules : Rules) (t : Table),
        (add_categorization_eff rules t).2 = add_categorization rules t) ∧
    (∀ (now : Int) (t : Table),
        (calculate_durations_eff now t).2 = calculate_durations now t) ∧
    (∀ (rules : SlaRules) (t : Table),
        (calculate_sla_breach_eff rules t).2 = calculate_sla_breach rules t) ∧
    (∀ t : Table, (estimate_user_impact_eff t).2 = estimate_user_impact t) :=
  ⟨fun _ _ _ => rfl, fun _ => rfl, fun _ => rfl, fun _ _ => rfl, fun _ _ => rfl,
   fun _ _ => rfl, fun _ => rfl, fun _ => rfl, fun _ => rfl, fun _ => rfl,
   fun _ _ => rfl, fun _ _ => rfl, fun _ _ => rfl, fun _ => rfl⟩

theorem rowAt_normalize (t : Table) (i : Nat) :
    rowAt (normalize_columns t) i = (rowAt t i).map normRow := by
  simp [rowAt, normalize_columns, List.getElem?_map]

theorem rowAt_parse (t : Table) (i : Nat) :
    rowAt (parse_dates t) i = (rowAt t i).map (parseDatesRow t.cols) := by
  simp [rowAt, parse_dates, List.getElem?_map]

theorem rowAt_status (t : Table) (i : Nat) :
    rowAt (add_status_fields t) i = (rowAt t i).map (statusRow t.cols) := by
  simp [rowAt, add_status_fields, List.getElem?_map]

theorem rowAt_prep (t : Table) (i : Nat) :
    rowAt (parse_dates (normalize_columns t)) i =
      (rowAt t i).map (fun r => parseDatesRow (t.cols.map normMap) (normRow r)) := by
  rw [rowAt_parse, rowAt_normalize, Option.map_map]
  rfl

theorem cols_durResPart (t : Table) :
    (durationsResPart t).cols =
      addCol (addCol t.cols "resolutionTimeHrs") "resolutionTimeDays" := by
  rw [durationsResPart]
  split <;> rfl

theorem cols_durAgePart (now : Int) (t : Table) :
    (durationsAgePart now t).cols = addCol (addCol t.cols "ageHrs") "ageDays" := by
  rw [durationsAgePart]
  split <;> rfl

theorem cols_estimate (t : Table) :
    (estimate_user_impact t).cols = addCol t.cols "userImpactEstimate" := rfl

theorem cols_sla (rules : SlaRules) (t : Table) :
    (calculate_sla_breach rules t).cols =
      addCol (addCol t.cols "slaBreach") "slaMarginHrs" := rfl

theorem cols_cat (rules : Rules) (t : Table) :
    (add_categorization rules t).cols = addCol t.cols "patternCategory" := rfl

theorem cols_statusT (t : Table) :
    (add_status_fields t).cols =
      addCol (addCol (addCol (addCol t.cols "isActive") "isResolved") "isHighImpact")
        "isCritical" := rfl

theorem cols_parseT (t : Table) : (parse_dates t).cols = t.cols := rfl

theorem cols_normT (t : Table) :
    (normalize_columns t).cols = t.cols.map normMap := rfl

theorem cols_durations (now : Int) (t : Table) :
    (calculate_durations now t).cols =
      addCol (addCol (addCol (addCol t.cols "resolutionTimeHrs") "resolutionTimeDays")
        "ageHrs") "ageDays" := by
  rw [calculate_durations, cols_durAgePart, cols_durResPart]

theorem cols_transform (cfg : TransformConfig) (now : Int) (t : Table)
    (hne : (t.rows.isEmpty || t.cols.isEmpty) = false) :
    (transform_incidents cfg now t).cols =
      addCol (addCol (addCol (addCol (addCol (addCol (addCol (addCol (addCol (addCol
        (addCol (addCol (t.cols.map normMap)
          "isActive") "isResolved") "isHighImpact") "isCritical")
          "patternCategory") "resolutionTimeHrs") "resolutionTimeDays")
          "ageHrs") "ageDays") "slaBreach") "slaMarginHrs") "userImpactEstimate" := by
  rw [transform_incidents, if_neg (by simp [hne])]
  rw [cols_estimate, cols_sla, cols_durations, cols_cat, cols_statusT, cols_parseT,
    cols_normT]

theorem lookup_statusRow (cs : List String) (r : Row) (k : String) :
    lookup (statusRow cs r) k =
      if "isCritical" = k then
        some (.b (if "priority" ∈ cs then criticalTest (rowGet r "priority" .na) else false))
      else if "isHighImpact" = k then
        some (.b (if "priority" ∈ cs then highImpactTest (rowGet r "priority" .na) else false))
      else if "isResolved" = k then
        some (.b (if "state" ∈ cs then isinStr (rowGet r "state" .na) resolvedStates else false))
      else if "isActive" = k then
        some (.b (if "state" ∈ cs then isinStr (rowGet r "state" .na) activeStates else false))
      else lookup r k := by
  rw [statusRow]
  by_cases hs : "state" ∈ cs <;> by_cases hp : "priority" ∈ cs <;>
    simp [hs, hp, lookup_rowSet]

theorem lookup_foldParse (ds : List String) (cs : List String) (r : Row) (k : String)
    (hk : k ∉ ds) :
    lookup (ds.foldl
      (fun r c => if c ∈ cs then rowSet r c (toDatetime (rowGet r c .na)) else r) r) k
      = lookup r k := by
  induction ds generalizing r with
  | nil => rfl
  | cons d ds ih =>
    rw [List.foldl_cons]
    rw [ih _ (fun h => hk (List.mem_cons_of_mem _ h))]
    by_cases hd : d ∈ cs
    · rw [if_pos hd, lookup_rowSet,
        if_neg (fun h => hk (by rw [← h]; exact List.mem_cons_self d ds))]
    · rw [if_neg hd]

theorem lookup_parseDatesRow_not_date (cs : List String) (r : Row) (k : String)
    (hk : k ∉ dateColumns) :
    lookup (parseDatesRow cs r) k = lookup r k := by
  rw [parseDatesRow]
  exact lookup_foldParse dateColumns cs r k hk

theorem lookup_parseDatesRow_openedDate (cs : List String) (r : Row) :
    lookup (parseDatesRow cs r) "openedDate" =
      if "openedDate" ∈ cs then some (toDatetime (rowGet r "openedDate" .na))
      else lookup r "openedDate" := by
  rw [parseDatesRow, dateColumns, List.foldl_cons]
  rw [lookup_foldParse _ _ _ _ (by decide)]
  by_cases h : "openedDate" ∈ cs
  · rw [if_pos h, if_pos h, lookup_rowSet, if_pos rfl]
  · rw [if_neg h, if_neg h]

theorem lookup_parseDatesRow_resolvedDate (cs : List String) (r : Row) :
    lookup (parseDatesRow cs r) "resolvedDate" =
      if "resolvedDate" ∈ cs then some (toDatetime (rowGet r "resolvedDate" .na))
      else lookup r "resolvedDate" := by
  rw [parseDatesRow, dateColumns, List.foldl_cons, List.foldl_cons]
  rw [lookup_foldParse _ _ _ _ (by decide)]
  by_cases ho : "openedDate" ∈ cs <;> by_cases h : "resolvedDate" ∈ cs <;>
    simp [ho, h, lookup_rowSet, rowGet]

theorem cellAt_durResPart_ne (t : Table) (i : Nat) (k : String)
    (h1 : k ≠ "resolutionTimeHrs") (h2 : k ≠ "resolutionTimeDays") :
    cellAt (durationsResPart t) i k = cellAt t i k := by
  rw [durationsResPart]
  split
  · rw [cellAt_maskedAssign_ne _ _ _ _ _ _ (Ne.symm h2),
      cellAt_maskedAssign_ne _ _ _ _ _ _ (Ne.symm h1)]
  · rw [cellAt_assignCol_ne _ _ _ _ _ (Ne.symm h2),
      cellAt_assignCol_ne _ _ _ _ _ (Ne.symm h1)]

theorem cellAt_durAgePart_ne (now : Int) (t : Table) (i : Nat) (k : String)
    (h1 : k ≠ "ageHrs") (h2 : k ≠ "ageDays") :
    cellAt (durationsAgePart now t) i k = cellAt t i k := by
  rw [durationsAgePart]
  split
  · rw [cellAt_maskedAssign_ne _ _ _ _ _ _ (Ne.symm h2),
      cellAt_maskedAssign_ne _ _ _ _ _ _ (Ne.symm h1)]
  · rw [cellAt_assignCol_ne _ _ _ _ _ (Ne.symm h2),
      cellAt_assignCol_ne _ _ _ _ _ (Ne.symm h1)]

theorem resolvedMask_rowSet_ne (r : Row) (k : String) (v : Value)
    (h1 : k ≠ "resolvedDate") (h2 : k ≠ "openedDate") :
    resolvedMask (rowSet r k v) = resolvedMask r := by
  simp [resolvedMask, rowGet, lookup_rowSet, h1, h2]

theorem activeMask_rowSet_ne (cs : List String) (r : Row) (k : String) (v : Value)
    (h : k ≠ "isActive") :
    activeMask cs (rowSet r k v) = activeMask cs r := by
  simp [activeMask, rowGet, lookup_rowSet, h]

theorem cellAt_durResPart_res (t : Table) (i : Nat) (ρ : Row)
    (h : rowAt t i = some ρ) :
    cellAt (durationsResPart t) i "resolutionTimeHrs" =
      if "resolvedDate" ∈ t.cols ∧ "openedDate" ∈ t.cols then
        (if resolvedMask ρ then some (fRes ρ)
          else if "resolutionTimeHrs" ∈ t.cols then lookup ρ "resolutionTimeHrs"
          else some .na)
      else some .na := by
  rw [durationsResPart]
  by_cases hd : "resolvedDate" ∈ t.cols ∧ "openedDate" ∈ t.cols
  · rw [if_pos hd, if_pos hd]
    rw [cellAt_maskedAssign_ne _ _ _ _ _ _ (by decide)]
    exact cellAt_maskedAssign_self _ _ _ _ _ _ h
  · rw [if_neg hd, if_neg hd]
    rw [cellAt_assignCol_ne _ _ _ _ _ (by decide)]
    exact cellAt_assignCol_self _ _ _ _ _ h

theorem cellAt_durResPart_resDays (t : Table) (i : Nat) (ρ : Row)
    (h : rowAt t i = some ρ) :
    cellAt (durationsResPart t) i "resolutionTimeDays" =
      if "resolvedDate" ∈ t.cols ∧ "openedDate" ∈ t.cols then
        (if resolvedMask ρ then some (divVal (fRes ρ) 24)
          else if "resolutionTimeDays" ∈ t.cols then lookup ρ "resolutionTimeDays"
          else some .na)
      else some .na := by
  rw [durationsResPart]
  by_cases hd : "resolvedDate" ∈ t.cols ∧ "openedDate" ∈ t.cols
  · rw [if_pos hd, if_pos hd]
    have hρ1 := rowAt_maskedAssign_isSome t "resolutionTimeHrs" resolvedMask fRes i ρ h
    rw [cellAt_maskedAssign_self _ _ _ _ _ _ hρ1]
    by_cases hm : resolvedMask ρ
    · simp [hm, resolvedMask_rowSet_ne, fResDays, rowGet, lookup_rowSet]
    · by_cases hc : "resolutionTimeHrs" ∈ t.cols <;>
        simp [hm, hc, resolvedMask_rowSet_ne, maskedAssign, mem_addCol, lookup_rowSet]
  · rw [if_neg hd, if_neg hd]
    have hρ1 := rowAt_assignCol_isSome t "resolutionTimeHrs" (fun _ => .na) i ρ h
    rw [cellAt_assignCol_self _ _ _ _ _ hρ1]

theorem cellAt_durAgePart_age (now : Int) (t : Table) (i : Nat) (σ : Row)
    (h : rowAt t i = some σ) :
    cellAt (durationsAgePart now t) i "ageHrs" =
      if "openedDate" ∈ t.cols then
        (if activeMask t.cols σ then some (fAge now σ)
          else if "ageHrs" ∈ t.cols then lookup σ "ageHrs" else some .na)
      else some .na := by
  rw [durationsAgePart]
  by_cases ho : "openedDate" ∈ t.cols
  · rw [if_pos ho, if_pos ho]
    rw [cellAt_maskedAssign_ne _ _ _ _ _ _ (by decide)]
    exact cellAt_maskedAssign_self _ _ _ _ _ _ h
  · rw [if_neg ho, if_neg ho]
    rw [cellAt_assignCol_ne _ _ _ _ _ (by decide)]
    exact cellAt_assignCol_self _ _ _ _ _ h

theorem cellAt_durAgePart_ageDays (now : Int) (t : Table) (i : Nat) (σ : Row)
    (h : rowAt t i = some σ) :
    cellAt (durationsAgePart now t) i "ageDays" =
      if "openedDate" ∈ t.cols then
        (if activeMask t.cols σ then some (divVal (fAge now σ) 24)
          else if "ageDays" ∈ t.cols then lookup σ "ageDays" else some .na)
      else some .na := by
  rw [durationsAgePart]
  by_cases ho : "openedDate" ∈ t.cols
  · rw [if_pos ho, if_pos ho]
    have hσ1 := rowAt_maskedAssign_isSome t "ageHrs" (activeMask t.cols) (fAge now) i σ h
    rw [cellAt_maskedAssign_self _ _ _ _ _ _ hσ1]
    by_cases hm : activeMask t.cols σ
    · simp [hm, activeMask_rowSet_ne, fAgeDays, rowGet, lookup_rowSet]
    · by_cases hc : "ageHrs" ∈ t.cols <;>
        simp [hm, hc, activeMask_rowSet_ne, maskedAssign, mem_addCol, lookup_rowSet]
  · rw [if_neg ho, if_neg ho]
    have hσ1 := rowAt_assignCol_isSome t "ageHrs" (fun _ => .na) i σ h
    rw [cellAt_assignCol_self _ _ _ _ _ hσ1]

theorem catText_congr (r1 r2 : Row)
    (h1 : lookup r1 "short_description" = lookup r2 "short_description")
    (h2 : lookup r1 "description" = lookup r2 "description") :
    catText r1 = catText r2 := by
  rw [catText, catText, rowGet, rowGet, rowGet, rowGet, h1, h2]

theorem estimate_impact_congr (r1 r2 : Row)
    (h1 : lookup r1 "ci_type" = lookup r2 "ci_type")
    (h2 : lookup r1 "priority" = lookup r2 "priority") :
    estimate_impact r1 = estimate_impact r2 := by
  rw [estimate_impact, estimate_impact, rowGet, rowGet, rowGet, rowGet, h1, h2]

theorem rowAt_durResPart_exists (t : Table) (i : Nat) (r : Row) (h : rowAt t i = some r) :
    ∃ r2, rowAt (durationsResPart t) i = some r2 := by
  rw [durationsResPart]
  split
  · exact ⟨_, rowAt_maskedAssign_isSome _ _ _ _ _ _ (rowAt_maskedAssign_isSome _ _ _ _ _ _ h)⟩
  · exact ⟨_, rowAt_assignCol_isSome _ _ _ _ _ (rowAt_assignCol_isSome _ _ _ _ _ h)⟩

theorem rowAt_durAgePart_exists (now : Int) (t : Table) (i : Nat) (r : Row)
    (h : rowAt t i = some r) :
    ∃ r2, rowAt (durationsAgePart now t) i = some r2 := by
  rw [durationsAgePart]
  split
  · exact ⟨_, rowAt_maskedAssign_isSome _ _ _ _ _ _ (rowAt_maskedAssign_isSome _ _ _ _ _ _ h)⟩
  · exact ⟨_, rowAt_assignCol_isSome _ _ _ _ _ (rowAt_assignCol_isSome _ _ _ _ _ h)⟩

theorem spec_isActive (cfg : TransformConfig) (now : Int) (u : Table) (i : Nat) (ρ : Row)
    (hne : (u.rows.isEmpty || u.cols.isEmpty) = false)
    (hρ : rowAt (parse_dates (normalize_columns u)) i = some ρ) :
    cellAt (transform_incidents cfg now u) i "isActive" =
      some (.b (if "state" ∈ u.cols.map normMap then
        isinStr (rowGet ρ "state" .na) activeStates else false)) := by
  rw [transform_incidents, if_neg (by simp [hne])]
  rw [estimate_user_impact, cellAt_assignCol_ne _ _ _ _ _ (by decide)]
  rw [calculate_sla_breach, cellAt_assignCol_ne _ _ _ _ _ (by decide),
    cellAt_assignCol_ne _ _ _ _ _ (by decide)]
  rw [calculate_durations, cellAt_durAgePart_ne _ _ _ _ (by decide) (by decide),
    cellAt_durResPart_ne _ _ _ (by decide) (by decide)]
  rw [add_categorization, cellAt_assignCol_ne _ _ _ _ _ (by decide)]
  rw [cellAt, rowAt_status, hρ]
  simp [lookup_statusRow, cols_parseT, cols_normT]

theorem spec_isResolved (cfg : TransformConfig) (now : Int) (u : Table) (i : Nat) (ρ : Row)
    (hne : (u.rows.isEmpty || u.cols.isEmpty) = false)
    (hρ : rowAt (parse_dates (normalize_columns u)) i = some ρ) :
    cellAt (transform_incidents cfg now u) i "isResolved" =
      some (.b (if "state" ∈ u.cols.map normMap then
        isinStr (rowGet ρ "state" .na) resolvedStates else false)) := by
  rw [transform_incidents, if_neg (by simp [hne])]
  rw [estimate_user_impact, cellAt_assignCol_ne _ _ _ _ _ (by decide)]
  rw [calculate_sla_breach, cellAt_assignCol_ne _ _ _ _ _ (by decide),
    cellAt_assignCol_ne _ _ _ _ _ (by decide)]
  rw [calculate_durations, cellAt_durAgePart_ne _ _ _ _ (by decide) (by decide),
    cellAt_durResPart_ne _ _ _ (by decide) (by decide)]
  rw [add_categorization, cellAt_assignCol_ne _ _ _ _ _ (by decide)]
  rw [cellAt, rowAt_status, hρ]
  simp [lookup_statusRow, cols_parseT, cols_normT]

theorem spec_isHighImpact (cfg : TransformConfig) (now : Int) (u : Table) (i : Nat) (ρ : Row)
    (hne : (u.rows.isEmpty || u.cols.isEmpty) = false)
    (hρ : rowAt (parse_dates (normalize_columns u)) i = some ρ) :
    cellAt (transform_incidents cfg now u) i "isHighImpact" =
      some (.b (if "priority" ∈ u.cols.map normMap then
        highImpactTest (rowGet ρ "priority" .na) else false)) := by
  rw [transform_incidents, if_neg (by simp [hne])]
  rw [estimate_user_impact, cellAt_assignCol_ne _ _ _ _ _ (by decide)]
  rw [calculate_sla_breach, cellAt_assignCol_ne _ _ _ _ _ (by decide),
    cellAt_assignCol_ne _ _ _ _ _ (by decide)]
  rw [calculate_durations, cellAt_durAgePart_ne _ _ _ _ (by decide) (by decide),
    cellAt_durResPart_ne _ _ _ (by decide) (by decide)]
  rw [add_categorization, cellAt_assignCol_ne _ _ _ _ _ (by decide)]
  rw [cellAt, rowAt_status, hρ]
  simp [lookup_statusRow, cols_parseT, cols_normT]

theorem spec_isCritical (cfg : TransformConfig) (now : Int) (u : Table) (i : Nat) (ρ : Row)
    (hne : (u.rows.isEmpty || u.cols.isEmpty) = false)
    (hρ : rowAt (parse_dates (normalize_columns u)) i = some ρ) :
    cellAt (transform_incidents cfg now u) i "isCritical" =
      some (.b (if "priority" ∈ u.cols.map normMap then
        criticalTest (rowGet ρ "priority" .na) else false)) := by
  rw [transform_incidents, if_neg (by simp [hne])]
  rw [estimate_user_impact, cellAt_assignCol_ne _ _ _ _ _ (by decide)]
  rw [calculate_sla_breach, cellAt_assignCol_ne _ _ _ _ _ (by decide),
    cellAt_assignCol_ne _ _ _ _ _ (by decide)]
  rw [calculate_durations, cellAt_durAgePart_ne _ _ _ _ (by decide) (by decide),
    cellAt_durResPart_ne _ _ _ (by decide) (by decide)]
  rw [add_categorization, cellAt_assignCol_ne _ _ _ _ _ (by decide)]
  rw [cellAt, rowAt_status, hρ]
  simp [lookup_statusRow, cols_parseT, cols_normT]

theorem spec_patternCategory (cfg : TransformConfig) (now : Int) (u : Table) (i : Nat) (ρ : Row)
    (hne : (u.rows.isEmpty || u.cols.isEmpty) = false)
    (hρ : rowAt (parse_dates (normalize_columns u)) i = some ρ) :
    cellAt (transform_incidents cfg now u) i "patternCategory" =
      some (.s (categorizeText cfg.catRules (catText ρ))) := by
  rw [transform_incidents, if_neg (by simp [hne])]
  rw [estimate_user_impact, cellAt_assignCol_ne _ _ _ _ _ (by decide)]
  rw [calculate_sla_breach, cellAt_assignCol_ne _ _ _ _ _ (by decide),
    cellAt_assignCol_ne _ _ _ _ _ (by decide)]
  rw [calculate_durations, cellAt_durAgePart_ne _ _ _ _ (by decide) (by decide),
    cellAt_durResPart_ne _ _ _ (by decide) (by decide)]
  have hst : rowAt (add_status_fields (parse_dates (normalize_columns u))) i
      = some (statusRow (parse_dates (normalize_columns u)).cols ρ) := by
    rw [rowAt_status, hρ]
    rfl
  rw [add_categorization, cellAt_assignCol_self _ _ _ _ _ hst]
  rw [categorize_incident]
  have h1 : lookup (statusRow (parse_dates (normalize_columns u)).cols ρ) "short_description"
      = lookup ρ "short_description" := by
    rw [lookup_statusRow]
    simp
  have h2 : lookup (statusRow (parse_dates (normalize_columns u)).cols ρ) "description"
      = lookup ρ "description" := by
    rw [lookup_statusRow]
    simp
  rw [catText_congr _ _ h1 h2]

theorem spec_userImpact (cfg : TransformConfig) (now : Int) (u : Table) (i : Nat) (ρ : Row)
    (hne : (u.rows.isEmpty || u.cols.isEmpty) = false)
    (hρ : rowAt (parse_dates (normalize_columns u)) i = some ρ) :
    cellAt (transform_incidents cfg now u) i "userImpactEstimate" =
      some (.i (estimate_impact ρ)) := by
  rw [transform_incidents, if_neg (by simp [hne])]
  have hst : rowAt (add_status_fields (parse_dates (normalize_columns u))) i
      = some (statusRow (parse_dates (normalize_columns u)).cols ρ) := by
    rw [rowAt_status, hρ]
    rfl
  have hcat := rowAt_assignCol_isSome _ "patternCategory"
    (fun r => .s (categorize_incident cfg.catRules r)) i _ hst
  obtain ⟨rres, hrres⟩ := rowAt_durResPart_exists _ i _ hcat
  obtain ⟨rdur, hrdur⟩ := rowAt_durAgePart_exists now _ i _ hrres
  have hrdur2 : rowAt (calculate_durations now (add_categorization cfg.catRules
      (add_status_fields (parse_dates (normalize_columns u))))) i = some rdur := by
    rw [calculate_durations]
    exact hrdur
  obtain ⟨rsla, hsla⟩ : ∃ r2, rowAt (calculate_sla_breach cfg.slaRules (calculate_durations now
      (add_categorization cfg.catRules
        (add_status_fields (parse_dates (normalize_columns u)))))) i = some r2 := by
    rw [calculate_sla_breach]
    exact ⟨_, rowAt_assignCol_isSome _ _ _ i _ (rowAt_assignCol_isSome _ _ _ i _ hrdur2)⟩
  rw [estimate_user_impact, cellAt_assignCol_self _ _ _ _ _ hsla]
  have hkey : ∀ k : String, k ∉ derivedCols → lookup rsla k = lookup ρ k := by
    intro k hk
    have e1 : lookup rsla k = cellAt (calculate_sla_breach cfg.slaRules (calculate_durations now
        (add_categorization cfg.catRules
          (add_status_fields (parse_dates (normalize_columns u)))))) i k := by
      rw [cellAt, hsla]
      rfl
    rw [e1, calculate_sla_breach,
      cellAt_assignCol_ne _ _ _ _ _ (fun h => hk (by rw [← h]; decide)),
      cellAt_assignCol_ne _ _ _ _ _ (fun h => hk (by rw [← h]; decide)),
      calculate_durations,
      cellAt_durAgePart_ne _ _ _ _ (fun h => hk (by rw [h]; decide))
        (fun h => hk (by rw [h]; decide)),
      cellAt_durResPart_ne _ _ _ (fun h => hk (by rw [h]; decide))
        (fun h => hk (by rw [h]; decide)),
      add_categorization,
      cellAt_assignCol_ne _ _ _ _ _ (fun h => hk (by rw [← h]; decide)),
      cellAt, rowAt_status, hρ]
    show lookup (statusRow (parse_dates (normalize_columns u)).cols ρ) k = lookup ρ k
    rw [lookup_statusRow,
      if_neg (fun h => hk (by rw [← h]; decide)),
      if_neg (fun h => hk (by rw [← h]; decide)),
      if_neg (fun h => hk (by rw [← h]; decide)),
      if_neg (fun h => hk (by rw [← h]; decide))]
  rw [estimate_impact_congr _ ρ (hkey "ci_type" (by decide)) (hkey "priority" (by decide))]

theorem lookup_catStatus_ne (cs : List String) (ρ : Row) (v : Value) (k : String)
    (h0 : "patternCategory" ≠ k) (h1 : "isCritical" ≠ k) (h2 : "isHighImpact" ≠ k)
    (h3 : "isResolved" ≠ k) (h4 : "isActive" ≠ k) :
    lookup (rowSet (statusRow cs ρ) "patternCategory" v) k = lookup ρ k := by
  rw [lookup_rowSet, if_neg h0, lookup_statusRow, if_neg h1, if_neg h2, if_neg h3, if_neg h4]

theorem resolvedMask_congr (r1 r2 : Row)
    (h1 : lookup r1 "resolvedDate" = lookup r2 "resolvedDate")
    (h2 : lookup r1 "openedDate" = lookup r2 "openedDate") :
    resolvedMask r1 = resolvedMask r2 := by
  rw [resolvedMask, resolvedMask, rowGet, rowGet, rowGet, rowGet, h1, h2]

theorem fRes_congr (r1 r2 : Row)
    (h1 : lookup r1 "resolvedDate" = lookup r2 "resolvedDate")
    (h2 : lookup r1 "openedDate" = lookup r2 "openedDate") :
    fRes r1 = fRes r2 := by
  rw [fRes, fRes, rowGet, rowGet, rowGet, rowGet, h1, h2]

theorem fAge_congr (now : Int) (r1 r2 : Row)
    (h : lookup r1 "openedDate" = lookup r2 "openedDate") :
    fAge now r1 = fAge now r2 := by
  rw [fAge, fAge, rowGet, rowGet, h]

theorem spec_res (cfg : TransformConfig) (now : Int) (u : Table) (i : Nat) (ρ : Row)
    (hne : (u.rows.isEmpty || u.cols.isEmpty) = false)
    (hρ : rowAt (parse_dates (normalize_columns u)) i = some ρ) :
    cellAt (transform_incidents cfg now u) i "resolutionTimeHrs" =
      if "resolvedDate" ∈ u.cols.map normMap ∧ "openedDate" ∈ u.cols.map normMap then
        (if resolvedMask ρ then some (fRes ρ)
          else if "resolutionTimeHrs" ∈ u.cols.map normMap then lookup ρ "resolutionTimeHrs"
          else some .na)
      else some .na := by
  rw [transform_incidents, if_neg (by simp [hne])]
  rw [estimate_user_impact, cellAt_assignCol_ne _ _ _ _ _ (by decide)]
  rw [calculate_sla_breach, cellAt_assignCol_ne _ _ _ _ _ (by decide),
    cellAt_assignCol_ne _ _ _ _ _ (by decide)]
  rw [calculate_durations, cellAt_durAgePart_ne _ _ _ _ (by decide) (by decide)]
  have hst : rowAt (add_status_fields (parse_dates (normalize_columns u))) i
      = some (statusRow (parse_dates (normalize_columns u)).cols ρ) := by
    rw [rowAt_status, hρ]
    rfl
  have hcat := rowAt_assignCol_isSome _ "patternCategory"
    (fun r => .s (categorize_incident cfg.catRules r)) i _ hst
  rw [add_categorization, cellAt_durResPart_res _ i _ hcat]
  have hlc : ∀ k : String, "patternCategory" ≠ k → "isCritical" ≠ k → "isHighImpact" ≠ k →
      "isResolved" ≠ k → "isActive" ≠ k →
      lookup (rowSet (statusRow (parse_dates (normalize_columns u)).cols ρ) "patternCategory"
        ((fun r => Value.s (categorize_incident cfg.catRules r))
          (statusRow (parse_dates (normalize_columns u)).cols ρ))) k = lookup ρ k :=
    fun k a b c d e => lookup_catStatus_ne _ _ _ k a b c d e
  have hm := resolvedMask_congr _ ρ
    (hlc _ (by decide) (by decide) (by decide) (by decide) (by decide))
    (hlc _ (by decide) (by decide) (by decide) (by decide) (by decide))
  have hf := fRes_congr _ ρ
    (hlc _ (by decide) (by decide) (by decide) (by decide) (by decide))
    (hlc _ (by decide) (by decide) (by decide) (by decide) (by decide))
  have hres := hlc "resolutionTimeHrs" (by decide) (by decide) (by decide) (by decide) (by decide)
  have m1 : ("resolvedDate" ∈ (assignCol (add_status_fields (parse_dates (normalize_columns u)))
      "patternCategory" (fun r => Value.s (categorize_incident cfg.catRules r))).cols)
      ↔ "resolvedDate" ∈ u.cols.map normMap := by
    simp [assignCol, cols_statusT, mem_addCol, cols_parseT, cols_normT]
  have m2 : ("openedDate" ∈ (assignCol (add_status_fields (parse_dates (normalize_columns u)))
      "patternCategory" (fun r => Value.s (categorize_incident cfg.catRules r))).cols)
      ↔ "openedDate" ∈ u.cols.map normMap := by
    simp [assignCol, cols_statusT, mem_addCol, cols_parseT, cols_normT]
  have m3 : ("resolutionTimeHrs" ∈ (assignCol (add_status_fields (parse_dates (normalize_columns u)))
      "patternCategory" (fun r => Value.s (categorize_incident cfg.catRules r))).cols)
      ↔ "resolutionTimeHrs" ∈ u.cols.map normMap := by
    simp [assignCol, cols_statusT, mem_addCol, cols_parseT, cols_normT]
  by_cases hd : "resolvedDate" ∈ u.cols.map normMap ∧ "openedDate" ∈ u.cols.map normMap
  · rw [if_pos ⟨m1.mpr hd.1, m2.mpr hd.2⟩, if_pos hd]
    by_cases hmm : resolvedMask ρ
    · rw [if_pos (by rw [hm]; exact hmm), if_pos hmm, hf]
    · rw [if_neg (by rw [hm]; exact hmm), if_neg hmm]
      by_cases hr : "resolutionTimeHrs" ∈ u.cols.map normMap
      · rw [if_pos (m3.mpr hr), if_pos hr, hres]
      · rw [if_neg (fun hc => hr (m3.mp hc)), if_neg hr]
  · rw [if_neg (fun hc => hd ⟨m1.mp hc.1, m2.mp hc.2⟩), if_neg hd]

theorem spec_resDays (cfg : TransformConfig) (now : Int) (u : Table) (i : Nat) (ρ : Row)
    (hne : (u.rows.isEmpty || u.cols.isEmpty) = false)
    (hρ : rowAt (parse_dates (normalize_columns u)) i = some ρ) :
    cellAt (transform_incidents cfg now u) i "resolutionTimeDays" =
      if "resolvedDate" ∈ u.cols.map normMap ∧ "openedDate" ∈ u.cols.map normMap then
        (if resolvedMask ρ then some (divVal (fRes ρ) 24)
          else if "resolutionTimeDays" ∈ u.cols.map normMap then lookup ρ "resolutionTimeDays"
          else some .na)
      else some .na := by
  rw [transform_incidents, if_neg (by simp [hne])]
  rw [estimate_user_impact, cellAt_assignCol_ne _ _ _ _ _ (by decide)]
  rw [calculate_sla_breach, cellAt_assignCol_ne _ _ _ _ _ (by decide),
    cellAt_assignCol_ne _ _ _ _ _ (by decide)]
  rw [calculate_durations, cellAt_durAgePart_ne _ _ _ _ (by decide) (by decide)]
  have hst : rowAt (add_status_fields (parse_dates (normalize_columns u))) i
      = some (statusRow (parse_dates (normalize_columns u)).cols ρ) := by
    rw [rowAt_status, hρ]
    rfl
  have hcat := rowAt_assignCol_isSome _ "patternCategory"
    (fun r => .s (categorize_incident cfg.catRules r)) i _ hst
  rw [add_categorization, cellAt_durResPart_resDays _ i _ hcat]
  have hlc : ∀ k : String, "patternCategory" ≠ k → "isCritical" ≠ k → "isHighImpact" ≠ k →
      "isResolved" ≠ k → "isActive" ≠ k →
      lookup (rowSet (statusRow (parse_dates (normalize_columns u)).cols ρ) "patternCategory"
        ((fun r => Value.s (categorize_incident cfg.catRules r))
          (statusRow (parse_dates (normalize_columns u)).cols ρ))) k = lookup ρ k :=
    fun k a b c d e => lookup_catStatus_ne _ _ _ k a b c d e
  have hm := resolvedMask_congr _ ρ
    (hlc _ (by decide) (by decide) (by decide) (by decide) (by decide))
    (hlc _ (by decide) (by decide) (by decide) (by decide) (by decide))
  have hf := fRes_congr _ ρ
    (hlc _ (by decide) (by decide) (by decide) (by decide) (by decide))
    (hlc _ (by decide) (by decide) (by decide) (by decide) (by decide))
  have hres := hlc "resolutionTimeDays" (by decide) (by decide) (by decide) (by decide) (by decide)
  have m1 : ("resolvedDate" ∈ (assignCol (add_status_fields (parse_dates (normalize_columns u)))
      "patternCategory" (fun r => Value.s (categorize_incident cfg.catRules r))).cols)
      ↔ "resolvedDate" ∈ u.cols.map normMap := by
    simp [assignCol, cols_statusT, mem_addCol, cols_parseT, cols_normT]
  have m2 : ("openedDate" ∈ (assignCol (add_status_fields (parse_dates (normalize_columns u)))
      "patternCategory" (fun r => Value.s (categorize_incident cfg.catRules r))).cols)
      ↔ "openedDate" ∈ u.cols.map normMap := by
    simp [assignCol, cols_statusT, mem_addCol, cols_parseT, cols_normT]
  have m3 : ("resolutionTimeDays" ∈ (assignCol (add_status_fields (parse_dates (normalize_columns u)))
      "patternCategory" (fun r => Value.s (categorize_incident cfg.catRules r))).cols)
      ↔ "resolutionTimeDays" ∈ u.cols.map normMap := by
    simp [assignCol, cols_statusT, mem_addCol, cols_parseT, cols_normT]
  by_cases hd : "resolvedDate" ∈ u.cols.map normMap ∧ "openedDate" ∈ u.cols.map normMap
  · rw [if_pos ⟨m1.mpr hd.1, m2.mpr hd.2⟩, if_pos hd]
    by_cases hmm : resolvedMask ρ
    · rw [if_pos (by rw [hm]; exact hmm), if_pos hmm, hf]
    · rw [if_neg (by rw [hm]; exact hmm), if_neg hmm]
      by_cases hr : "resolutionTimeDays" ∈ u.cols.map normMap
      · rw [if_pos (m3.mpr hr), if_pos hr, hres]
      · rw [if_neg (fun hc => hr (m3.mp hc)), if_neg hr]
  · rw [if_neg (fun hc => hd ⟨m1.mp hc.1, m2.mp hc.2⟩), if_neg hd]

theorem spec_ageHrs (cfg : TransformConfig) (now : Int) (u : Table) (i : Nat) (ρ : Row)
    (hne : (u.rows.isEmpty || u.cols.isEmpty) = false)
    (hρ : rowAt (parse_dates (normalize_columns u)) i = some ρ) :
    cellAt (transform_incidents cfg now u) i "ageHrs" =
      if "openedDate" ∈ u.cols.map normMap then
        (if (if "state" ∈ u.cols.map normMap then isinStr (rowGet ρ "state" .na) activeStates
              else false) = true
          then some (fAge now ρ)
          else if "ageHrs" ∈ u.cols.map normMap then lookup ρ "ageHrs" else some .na)
      else some .na := by
  rw [transform_incidents, if_neg (by simp [hne])]
  rw [estimate_user_impact, cellAt_assignCol_ne _ _ _ _ _ (by decide)]
  rw [calculate_sla_breach, cellAt_assignCol_ne _ _ _ _ _ (by decide),
    cellAt_assignCol_ne _ _ _ _ _ (by decide)]
  have hst : rowAt (add_status_fields (parse_dates (normalize_columns u))) i
      = some (statusRow (parse_dates (normalize_columns u)).cols ρ) := by
    rw [rowAt_status, hρ]
    rfl
  have hcat := rowAt_assignCol_isSome _ "patternCategory"
    (fun r => .s (categorize_incident cfg.catRules r)) i _ hst
  obtain ⟨σ, hσ⟩ := rowAt_durResPart_exists _ i _ hcat
  rw [calculate_durations, add_categorization, cellAt_durAgePart_age now _ i σ hσ]
  have hlc : ∀ k : String, "patternCategory" ≠ k → "isCritical" ≠ k → "isHighImpact" ≠ k →
      "isResolved" ≠ k → "isActive" ≠ k →
      lookup (rowSet (statusRow (parse_dates (normalize_columns u)).cols ρ) "patternCategory"
        ((fun r => Value.s (categorize_incident cfg.catRules r))
          (statusRow (parse_dates (normalize_columns u)).cols ρ))) k = lookup ρ k :=
    fun k a b c d e => lookup_catStatus_ne _ _ _ k a b c d e
  have hlσ : ∀ k : String, k ≠ "resolutionTimeHrs" → k ≠ "resolutionTimeDays" →
      lookup σ k = lookup (rowSet (statusRow (parse_dates (normalize_columns u)).cols ρ)
        "patternCategory" ((fun r => Value.s (categorize_incident cfg.catRules r))
          (statusRow (parse_dates (normalize_columns u)).cols ρ))) k := by
    intro k a b
    have e1 : lookup σ k = cellAt (durationsResPart (assignCol (add_status_fields (parse_dates (normalize_columns u)))
      "patternCategory" (fun r => Value.s (categorize_incident cfg.catRules r)))) i k := by
      rw [cellAt, hσ]
      rfl
    rw [e1, cellAt_durResPart_ne _ _ _ a b, cellAt, hcat]
    rfl
  have misA : "isActive" ∈ (durationsResPart (assignCol (add_status_fields (parse_dates (normalize_columns u)))
      "patternCategory" (fun r => Value.s (categorize_incident cfg.catRules r)))).cols := by
    rw [cols_durResPart]
    simp [mem_addCol, assignCol, cols_statusT]
  have hact : activeMask (durationsResPart (assignCol (add_status_fields (parse_dates (normalize_columns u)))
      "patternCategory" (fun r => Value.s (categorize_incident cfg.catRules r)))).cols σ
      = (if "state" ∈ u.cols.map normMap then isinStr (rowGet ρ "state" .na) activeStates
          else false) := by
    rw [activeMask, if_pos misA, rowGet, hlσ _ (by decide) (by decide), lookup_rowSet,
      if_neg (by decide), lookup_statusRow]
    simp [valBool, cols_parseT, cols_normT]
  have m1 : ("openedDate" ∈ (durationsResPart (assignCol (add_status_fields (parse_dates (normalize_columns u)))
      "patternCategory" (fun r => Value.s (categorize_incident cfg.catRules r)))).cols) ↔
      "openedDate" ∈ u.cols.map normMap := by
    rw [cols_durResPart]
    simp [mem_addCol, assignCol, cols_statusT, cols_parseT, cols_normT]
  have m2 : ("ageHrs" ∈ (durationsResPart (assignCol (add_status_fields (parse_dates (normalize_columns u)))
      "patternCategory" (fun r => Value.s (categorize_incident cfg.catRules r)))).cols) ↔
      "ageHrs" ∈ u.cols.map normMap := by
    rw [cols_durResPart]
    simp [mem_addCol, assignCol, cols_statusT, cols_parseT, cols_normT]
  rw [hact]
  have hfa : fAge now σ = fAge now ρ := fAge_congr now _ _
    (by rw [hlσ _ (by decide) (by decide)]
        exact hlc _ (by decide) (by decide) (by decide) (by decide) (by decide))
  have hah : lookup σ "ageHrs" = lookup ρ "ageHrs" := by
    rw [hlσ _ (by decide) (by decide)]
    exact hlc _ (by decide) (by decide) (by decide) (by decide) (by decide)
  by_cases ho : "openedDate" ∈ u.cols.map normMap
  · rw [if_pos (m1.mpr ho), if_pos ho]
    by_cases hac : (if "state" ∈ u.cols.map normMap then
        isinStr (rowGet ρ "state" .na) activeStates else false) = true
    · rw [if_pos hac, if_pos hac, hfa]
    · rw [if_neg hac, if_neg hac]
      by_cases hh : "ageHrs" ∈ u.cols.map normMap
      · rw [if_pos (m2.mpr hh), if_pos hh, hah]
      · rw [if_neg (fun hc => hh (m2.mp hc)), if_neg hh]
  · rw [if_neg (fun hc => ho (m1.mp hc)), if_neg ho]

theorem spec_ageDays (cfg : TransformConfig) (now : Int) (u : Table) (i : Nat) (ρ : Row)
    (hne : (u.rows.isEmpty || u.cols.isEmpty) = false)
    (hρ : rowAt (parse_dates (normalize_columns u)) i = some ρ) :
    cellAt (transform_incidents cfg now u) i "ageDays" =
      if "openedDate" ∈ u.cols.map normMap then
        (if (if "state" ∈ u.cols.map normMap then isinStr (rowGet ρ "state" .na) activeStates
              else false) = true
          then some (divVal (fAge now ρ) 24)
          else if "ageDays" ∈ u.cols.map normMap then lookup ρ "ageDays" else some .na)
      else some .na := by
  rw [transform_incidents, if_neg (by simp [hne])]
  rw [estimate_user_impact, cellAt_assignCol_ne _ _ _ _ _ (by decide)]
  rw [calculate_sla_breach, cellAt_assignCol_ne _ _ _ _ _ (by decide),
    cellAt_assignCol_ne _ _ _ _ _ (by decide)]
  have hst : rowAt (add_status_fields (parse_dates (normalize_columns u))) i
      = some (statusRow (parse_dates (normalize_columns u)).cols ρ) := by
    rw [rowAt_status, hρ]
    rfl
  have hcat := rowAt_assignCol_isSome _ "patternCategory"
    (fun r => .s (categorize_incident cfg.catRules r)) i _ hst
  obtain ⟨σ, hσ⟩ := rowAt_durResPart_exists _ i _ hcat
  rw [calculate_durations, add_categorization, cellAt_durAgePart_ageDays now _ i σ hσ]
  have hlc : ∀ k : String, "patternCategory" ≠ k → "isCritical" ≠ k → "isHighImpact" ≠ k →
      "isResolved" ≠ k → "isActive" ≠ k →
      lookup (rowSet (statusRow (parse_dates (normalize_columns u)).cols ρ) "patternCategory"
        ((fun r => Value.s (categorize_incident cfg.catRules r))
          (statusRow (parse_dates (normalize_columns u)).cols ρ))) k = lookup ρ k :=
    fun k a b c d e => lookup_catStatus_ne _ _ _ k a b c d e
  have hlσ : ∀ k : String, k ≠ "resolutionTimeHrs" → k ≠ "resolutionTimeDays" →
      lookup σ k = lookup (rowSet (statusRow (parse_dates (normalize_columns u)).cols ρ)
        "patternCategory" ((fun r => Value.s (categorize_incident cfg.catRules r))
          (statusRow (parse_dates (normalize_columns u)).cols ρ))) k := by
    intro k a b
    have e1 : lookup σ k = cellAt (durationsResPart (assignCol (add_status_fields (parse_dates (normalize_columns u)))
      "patternCategory" (fun r => Value.s (categorize_incident cfg.catRules r)))) i k := by
      rw [cellAt, hσ]
      rfl
    rw [e1, cellAt_durResPart_ne _ _ _ a b, cellAt, hcat]
    rfl
  have misA : "isActive" ∈ (durationsResPart (assignCol (add_status_fields (parse_dates (normalize_columns u)))
      "patternCategory" (fun r => Value.s (categorize_incident cfg.catRules r)))).cols := by
    rw [cols_durResPart]
    simp [mem_addCol, assignCol, cols_statusT]
  have hact : activeMask (durationsResPart (assignCol (add_status_fields (parse_dates (normalize_columns u)))
      "patternCategory" (fun r => Value.s (categorize_incident cfg.catRules r)))).cols σ
      = (if "state" ∈ u.cols.map normMap then isinStr (rowGet ρ "state" .na) activeStates
          else false) := by
    rw [activeMask, if_pos misA, rowGet, hlσ _ (by decide) (by decide), lookup_rowSet,
      if_neg (by decide), lookup_statusRow]
    simp [valBool, cols_parseT, cols_normT]
  have m1 : ("openedDate" ∈ (durationsResPart (assignCol (add_status_fields (parse_dates (normalize_columns u)))
      "patternCategory" (fun r => Value.s (categorize_incident cfg.catRules r)))).cols) ↔
      "openedDate" ∈ u.cols.map normMap := by
    rw [cols_durResPart]
    simp [mem_addCol, assignCol, cols_statusT, cols_parseT, cols_normT]
  have m2 : ("ageDays" ∈ (durationsResPart (assignCol (add_status_fields (parse_dates (normalize_columns u)))
      "patternCategory" (fun r => Value.s (categorize_incident cfg.catRules r)))).cols) ↔
      "ageDays" ∈ u.cols.map normMap := by
    rw [cols_durResPart]
    simp [mem_addCol, assignCol, cols_statusT, cols_parseT, cols_normT]
  rw [hact]
  have hfa : fAge now σ = fAge now ρ := fAge_congr now _ _
    (by rw [hlσ _ (by decide) (by decide)]
        exact hlc _ (by decide) (by decide) (by decide) (by decide) (by decide))
  have hah : lookup σ "ageDays" = lookup ρ "ageDays" := by
    rw [hlσ _ (by decide) (by decide)]
    exact hlc _ (by decide) (by decide) (by decide) (by decide) (by decide)
  by_cases ho : "openedDate" ∈ u.cols.map normMap
  · rw [if_pos (m1.mpr ho), if_pos ho]
    by_cases hac : (if "state" ∈ u.cols.map normMap then
        isinStr (rowGet ρ "state" .na) activeStates else false) = true
    · rw [if_pos hac, if_pos hac, hfa]
    · rw [if_neg hac, if_neg hac]
      by_cases hh : "ageDays" ∈ u.cols.map normMap
      · rw [if_pos (m2.mpr hh), if_pos hh, hah]
      · rw [if_neg (fun hc => hh (m2.mp hc)), if_neg hh]
  · rw [if_neg (fun hc => ho (m1.mp hc)), if_neg ho]

theorem spec_slaBreach (cfg : TransformConfig) (now : Int) (u : Table) (i : Nat) (ρ : Row)
    (hne : (u.rows.isEmpty || u.cols.isEmpty) = false)
    (hρ : rowAt (parse_dates (normalize_columns u)) i = some ρ) :
    cellAt (transform_incidents cfg now u) i "slaBreach" =
      some (.b (match (cellAt (transform_incidents cfg now u) i "resolutionTimeHrs").getD .na with
        | .q x => decide (x > slaThreshold cfg.slaRules (rowGet ρ "priority" (.s "4 - Low")))
        | _ => false)) := by
  have hst : rowAt (add_status_fields (parse_dates (normalize_columns u))) i
      = some (statusRow (parse_dates (normalize_columns u)).cols ρ) := by
    rw [rowAt_status, hρ]
    rfl
  have hcat := rowAt_assignCol_isSome _ "patternCategory"
    (fun r => .s (categorize_incident cfg.catRules r)) i _ hst
  obtain ⟨rres, hrres⟩ := rowAt_durResPart_exists _ i _ hcat
  obtain ⟨rdur, hrdur⟩ := rowAt_durAgePart_exists now _ i _ hrres
  have hrdur2 : rowAt (calculate_durations now (add_categorization cfg.catRules
      (add_status_fields (parse_dates (normalize_columns u))))) i = some rdur := by
    rw [calculate_durations]
    exact hrdur
  have hres2 : cellAt (transform_incidents cfg now u) i "resolutionTimeHrs"
      = lookup rdur "resolutionTimeHrs" := by
    rw [transform_incidents, if_neg (by simp [hne])]
    rw [estimate_user_impact, cellAt_assignCol_ne _ _ _ _ _ (by decide)]
    rw [calculate_sla_breach, cellAt_assignCol_ne _ _ _ _ _ (by decide),
      cellAt_assignCol_ne _ _ _ _ _ (by decide)]
    rw [cellAt, hrdur2]
    rfl
  have hpri : lookup rdur "priority" = lookup ρ "priority" := by
    have e1 : lookup rdur "priority" = cellAt (calculate_durations now
        (add_categorization cfg.catRules
          (add_status_fields (parse_dates (normalize_columns u))))) i "priority" := by
      rw [cellAt, hrdur2]
      rfl
    rw [e1, calculate_durations, cellAt_durAgePart_ne _ _ _ _ (by decide) (by decide),
      cellAt_durResPart_ne _ _ _ (by decide) (by decide), add_categorization, cellAt, hcat]
    show lookup (rowSet (statusRow (parse_dates (normalize_columns u)).cols ρ)
      "patternCategory" _) "priority" = lookup ρ "priority"
    exact lookup_catStatus_ne _ _ _ _ (by decide) (by decide) (by decide) (by decide) (by decide)
  rw [hres2]
  rw [transform_incidents, if_neg (by simp [hne])]
  rw [estimate_user_impact, cellAt_assignCol_ne _ _ _ _ _ (by decide)]
  rw [calculate_sla_breach, cellAt_assignCol_ne _ _ _ _ _ (by decide)]
  rw [cellAt_assignCol_self _ _ _ _ _ hrdur2]
  rw [check_sla_breach, rowGet, rowGet, rowGet, hpri]

theorem spec_slaMarginHrs (cfg : TransformConfig) (now : Int) (u : Table) (i : Nat) (ρ : Row)
    (hne : (u.rows.isEmpty || u.cols.isEmpty) = false)
    (hρ : rowAt (parse_dates (normalize_columns u)) i = some ρ) :
    cellAt (transform_incidents cfg now u) i "slaMarginHrs" =
      some (match (cellAt (transform_incidents cfg now u) i "resolutionTimeHrs").getD .na with
        | .q x => Value.q (qSub (slaThreshold cfg.slaRules (rowGet ρ "priority" (.s "4 - Low"))) x)
        | _ => Value.na) := by
  have hst : rowAt (add_status_fields (parse_dates (normalize_columns u))) i
      = some (statusRow (parse_dates (normalize_columns u)).cols ρ) := by
    rw [rowAt_status, hρ]
    rfl
  have hcat := rowAt_assignCol_isSome _ "patternCategory"
    (fun r => .s (categorize_incident cfg.catRules r)) i _ hst
  obtain ⟨rres, hrres⟩ := rowAt_durResPart_exists _ i _ hcat
  obtain ⟨rdur, hrdur⟩ := rowAt_durAgePart_exists now _ i _ hrres
  have hrdur2 : rowAt (calculate_durations now (add_categorization cfg.catRules
      (add_status_fields (parse_dates (normalize_columns u))))) i = some rdur := by
    rw [calculate_durations]
    exact hrdur
  have hbr := rowAt_assignCol_isSome _ "slaBreach"
    (fun r => .b (check_sla_breach cfg.slaRules r)) i _ hrdur2
  have hres2 : cellAt (transform_incidents cfg now u) i "resolutionTimeHrs"
      = lookup rdur "resolutionTimeHrs" := by
    rw [transform_incidents, if_neg (by simp [hne])]
    rw [estimate_user_impact, cellAt_assignCol_ne _ _ _ _ _ (by decide)]
    rw [calculate_sla_breach, cellAt_assignCol_ne _ _ _ _ _ (by decide),
      cellAt_assignCol_ne _ _ _ _ _ (by decide)]
    rw [cellAt, hrdur2]
    rfl
  have hpri : lookup rdur "priority" = lookup ρ "priority" := by
    have e1 : lookup rdur "priority" = cellAt (calculate_durations now
        (add_categorization cfg.catRules
          (add_status_fields (parse_dates (normalize_columns u))))) i "priority" := by
      rw [cellAt, hrdur2]
      rfl
    rw [e1, calculate_durations, cellAt_durAgePart_ne _ _ _ _ (by decide) (by decide),
      cellAt_durResPart_ne _ _ _ (by decide) (by decide), add_categorization, cellAt, hcat]
    show lookup (rowSet (statusRow (parse_dates (normalize_columns u)).cols ρ)
      "patternCategory" _) "priority" = lookup ρ "priority"
    exact lookup_catStatus_ne _ _ _ _ (by decide) (by decide) (by decide) (by decide) (by decide)
  rw [hres2]
  rw [transform_incidents, if_neg (by simp [hne])]
  rw [estimate_user_impact, cellAt_assignCol_ne _ _ _ _ _ (by decide)]
  rw [calculate_sla_breach, cellAt_assignCol_self _ _ _ _ _ hbr]
  rw [calculate_sla_margin, rowGet, rowGet, rowGet]
  rw [lookup_rowSet, if_neg (by decide), lookup_rowSet, if_neg (by decide), hpri]

theorem normMap_idem (c : String) : normMap (normMap c) = normMap c := by
  rw [show normMap c = (if c = "incident_state" then "state"
    else if c = "opened" then "openedDate"
    else if c = "opened_at" then "openedDate"
    else if c = "resolved" then "resolvedDate"
    else if c = "resolved_at" then "resolvedDate"
    else if c = "u_resolved" then "resolvedDate"
    else if c = "u_ci_type" then "ci_type"
    else c) from rfl]
  split_ifs with h1 h2 h3 h4 h5 h6 h7
  · decide
  · decide
  · decide
  · decide
  · decide
  · decide
  · decide
  · rw [normMap, if_neg h1, if_neg h2, if_neg h3, if_neg h4, if_neg h5, if_neg h6, if_neg h7]

theorem normFixed_rowSet (r : Row) (k : String) (v : Value)
    (hr : ∀ p ∈ r, normMap p.1 = p.1) (hk : normMap k = k) :
    ∀ p ∈ rowSet r k v, normMap p.1 = p.1 := by
  induction r with
  | nil =>
    intro p hp
    rw [rowSet] at hp
    simp at hp
    rw [hp]
    exact hk
  | cons q rest ih =>
    obtain ⟨a, b⟩ := q
    intro p hp
    rw [rowSet] at hp
    by_cases hak : a = k
    · rw [if_pos hak] at hp
      rcases List.mem_cons.mp hp with rfl | hmem
      · exact hk
      · exact hr p (List.mem_cons_of_mem _ hmem)
    · rw [if_neg hak] at hp
      rcases List.mem_cons.mp hp with rfl | hmem
      · exact hr (a, b) (List.mem_cons_self _ _)
      · exact ih (fun q hq => hr q (List.mem_cons_of_mem _ hq)) p hmem

theorem normFixed_maskedRow (σ : Row) (c : String) (v1 v2 : Value) (m : Bool) (p : Prop)
    [Decidable p]
    (hσ : ∀ q ∈ σ, normMap q.1 = q.1) (hc : normMap c = c) :
    ∀ q ∈ (if m then rowSet σ c v1 else if p then σ else rowSet σ c v2),
      normMap q.1 = q.1 := by
  by_cases hm : m = true <;> by_cases hp2 : p <;>
    simp only [hm, hp2, if_true, if_false, ite_true, ite_false] <;>
    first
    | exact normFixed_rowSet _ _ _ hσ hc
    | exact hσ

theorem normFixed_normRow (r : Row) : ∀ p ∈ normRow r, normMap p.1 = p.1 := by
  intro p hp
  rw [normRow] at hp
  obtain ⟨q, hq, rfl⟩ := List.mem_map.mp hp
  exact normMap_idem q.1

theorem normFixed_foldParse (cs : List String) :
    ∀ ds : List String, (∀ d ∈ ds, normMap d = d) →
    ∀ r : Row, (∀ p ∈ r, normMap p.1 = p.1) →
    ∀ p ∈ ds.foldl
      (fun r c => if c ∈ cs then rowSet r c (toDatetime (rowGet r c .na)) else r) r,
      normMap p.1 = p.1 := by
  intro ds
  induction ds with
  | nil =>
    intro _ r hr
    exact hr
  | cons d ds ih =>
    intro hds r hr p hp
    rw [List.foldl_cons] at hp
    refine ih (fun d2 hd2 => hds d2 (List.mem_cons_of_mem _ hd2)) _ ?_ p hp
    by_cases hd : d ∈ cs
    · rw [if_pos hd]
      exact normFixed_rowSet _ _ _ hr (hds d (List.mem_cons_self _ _))
    · rw [if_neg hd]
      exact hr

theorem normFixed_statusRow (cs : List String) (r : Row)
    (hr : ∀ p ∈ r, normMap p.1 = p.1) :
    ∀ p ∈ statusRow cs r, normMap p.1 = p.1 := by
  by_cases hs : "state" ∈ cs <;> by_cases hp2 : "priority" ∈ cs <;>
    simp only [statusRow, hs, hp2, if_true, if_false, ite_true, ite_false] <;>
    exact normFixed_rowSet _ _ _ (normFixed_rowSet _ _ _ (normFixed_rowSet _ _ _
      (normFixed_rowSet _ _ _ hr (by decide)) (by decide)) (by decide)) (by decide)

theorem normFixed_transform (cfg : TransformConfig) (now : Int) (u : Table) (i : Nat) (rE : Row)
    (hne : (u.rows.isEmpty || u.cols.isEmpty) = false)
    (hE : rowAt (transform_incidents cfg now u) i = some rE) :
    ∀ p ∈ rE, normMap p.1 = p.1 := by
  rw [transform_incidents, if_neg (by simp [hne])] at hE
  rw [estimate_user_impact, rowAt_assignCol] at hE
  obtain ⟨r5, h5, rfl⟩ := Option.map_eq_some'.mp hE
  refine normFixed_rowSet _ _ _ ?_ (by decide)
  rw [calculate_sla_breach, rowAt_assignCol] at h5
  obtain ⟨r4, h4, rfl⟩ := Option.map_eq_some'.mp h5
  refine normFixed_rowSet _ _ _ ?_ (by decide)
  rw [rowAt_assignCol] at h4
  obtain ⟨r3, h3, rfl⟩ := Option.map_eq_some'.mp h4
  refine normFixed_rowSet _ _ _ ?_ (by decide)
  rw [calculate_durations, durationsAgePart] at h3
  have hres : ∀ r2 : Row,
      rowAt (durationsResPart (add_categorization cfg.catRules
        (add_status_fields (parse_dates (normalize_columns u))))) i = some r2 →
      ∀ p ∈ r2, normMap p.1 = p.1 := by
    intro r2 h2
    rw [durationsResPart] at h2
    have hcatNF : ∀ rc : Row,
        rowAt (add_categorization cfg.catRules
          (add_status_fields (parse_dates (normalize_columns u)))) i = some rc →
        ∀ p ∈ rc, normMap p.1 = p.1 := by
      intro rc hc
      rw [add_categorization, rowAt_assignCol] at hc
      obtain ⟨rs, hs, rfl⟩ := Option.map_eq_some'.mp hc
      refine normFixed_rowSet _ _ _ ?_ (by decide)
      rw [rowAt_status] at hs
      obtain ⟨rp, hp, rfl⟩ := Option.map_eq_some'.mp hs
      refine normFixed_statusRow _ _ ?_
      rw [rowAt_prep] at hp
      obtain ⟨r0, h0, rfl⟩ := Option.map_eq_some'.mp hp
      rw [parseDatesRow]
      exact normFixed_foldParse _ _ (by decide) _ (normFixed_normRow r0)
    split at h2
    · rw [rowAt_maskedAssign] at h2
      obtain ⟨rx, hx, rfl⟩ := Option.map_eq_some'.mp h2
      rw [rowAt_maskedAssign] at hx
      obtain ⟨rc, hc, rfl⟩ := Option.map_eq_some'.mp hx
      exact normFixed_maskedRow _ _ _ _ _ _
        (normFixed_maskedRow _ _ _ _ _ _ (hcatNF rc hc) (by decide)) (by decide)
    · rw [rowAt_assignCol] at h2
      obtain ⟨rx, hx, rfl⟩ := Option.map_eq_some'.mp h2
      rw [rowAt_assignCol] at hx
      obtain ⟨rc, hc, rfl⟩ := Option.map_eq_some'.mp hx
      exact normFixed_rowSet _ _ _ (normFixed_rowSet _ _ _ (hcatNF rc hc) (by decide))
        (by decide)
  split at h3
  · rw [rowAt_maskedAssign] at h3
    obtain ⟨rx, hx, rfl⟩ := Option.map_eq_some'.mp h3
    rw [rowAt_maskedAssign] at hx
    obtain ⟨r2, h2, rfl⟩ := Option.map_eq_some'.mp hx
    exact normFixed_maskedRow _ _ _ _ _ _
      (normFixed_maskedRow _ _ _ _ _ _ (hres r2 h2) (by decide)) (by decide)
  · rw [rowAt_assignCol] at h3
    obtain ⟨rx, hx, rfl⟩ := Option.map_eq_some'.mp h3
    rw [rowAt_assignCol] at hx
    obtain ⟨r2, h2, rfl⟩ := Option.map_eq_some'.mp hx
    exact normFixed_rowSet _ _ _ (normFixed_rowSet _ _ _ (hres r2 h2) (by decide)) (by decide)

theorem normFixed_cols_map (cs : List String) : ∀ s ∈ cs.map normMap, normMap s = s := by
  intro s hs
  obtain ⟨c, hc, rfl⟩ := List.mem_map.mp hs
  exact normMap_idem c

theorem normFixed_addCol (cs : List String) (c : String)
    (hcs : ∀ s ∈ cs, normMap s = s) (hc : normMap c = c) :
    ∀ s ∈ addCol cs c, normMap s = s := by
  intro s hs
  rcases (mem_addCol cs c s).mp hs with h | rfl
  · exact hcs s h
  · exact hc

theorem normFixed_transform_cols (cfg : TransformConfig) (now : Int) (u : Table)
    (hne : (u.rows.isEmpty || u.cols.isEmpty) = false) :
    ∀ s ∈ (transform_incidents cfg now u).cols, normMap s = s := by
  rw [cols_transform cfg now u hne]
  exact normFixed_addCol _ _ (normFixed_addCol _ _ (normFixed_addCol _ _ (normFixed_addCol _ _
    (normFixed_addCol _ _ (normFixed_addCol _ _ (normFixed_addCol _ _ (normFixed_addCol _ _
      (normFixed_addCol _ _ (normFixed_addCol _ _ (normFixed_addCol _ _ (normFixed_addCol _ _
        (normFixed_cols_map u.cols) (by decide)) (by decide)) (by decide)) (by decide))
          (by decide)) (by decide)) (by decide)) (by decide)) (by decide)) (by decide))
            (by decide)) (by decide)

theorem map_normMap_self (cs : List String) (h : ∀ s ∈ cs, normMap s = s) :
    cs.map normMap = cs := by
  induction cs with
  | nil => rfl
  | cons a l ih =>
    rw [List.map_cons, h a (List.mem_cons_self _ _),
      ih (fun s hs => h s (List.mem_cons_of_mem _ hs))]

theorem normRow_eq_self (r : Row) (h : ∀ p ∈ r, normMap p.1 = p.1) : normRow r = r := by
  induction r with
  | nil => rfl
  | cons q rest ih =>
    have hq := h q (List.mem_cons_self _ _)
    rw [normRow, List.map_cons, hq, Prod.mk.eta,
      show List.map (fun p => (normMap p.1, p.2)) rest = normRow rest from rfl,
      ih (fun p hp => h p (List.mem_cons_of_mem _ hp))]

theorem toDatetime_idem (v : Value) : toDatetime (toDatetime v) = toDatetime v := by
  cases v with
  | s x =>
    cases hp : parseTimestamp x <;> simp [toDatetime, hp]
  | t x => rfl
  | b x => rfl
  | i x => rfl
  | q x => rfl
  | na => rfl

theorem addCol_ne_nil (cs : List String) (c : String) : addCol cs c ≠ [] := by
  rw [addCol]
  split
  case isTrue h =>
    intro hnil
    rw [hnil] at h
    simp at h
  case isFalse h =>
    simp

theorem rows_length_durResPart (t : Table) :
    (durationsResPart t).rows.length = t.rows.length := by
  rw [durationsResPart]
  split <;> simp [maskedAssign, assignCol]

theorem rows_length_durAgePart (now : Int) (t : Table) :
    (durationsAgePart now t).rows.length = t.rows.length := by
  rw [durationsAgePart]
  split <;> simp [maskedAssign, assignCol]

theorem rows_length_transform (cfg : TransformConfig) (now : Int) (u : Table)
    (hne : (u.rows.isEmpty || u.cols.isEmpty) = false) :
    (transform_incidents cfg now u).rows.length = u.rows.length := by
  rw [transform_incidents, if_neg (by simp [hne])]
  rw [estimate_user_impact, assignCol]
  rw [calculate_sla_breach]
  simp only [assignCol, List.length_map]
  rw [calculate_durations, rows_length_durAgePart, rows_length_durResPart]
  simp [add_categorization, assignCol, add_status_fields, parse_dates, normalize_columns]

theorem transform_guard_false (cfg : TransformConfig) (now : Int) (u : Table)
    (hne : (u.rows.isEmpty || u.cols.isEmpty) = false) :
    ((transform_incidents cfg now u).rows.isEmpty
      || (transform_incidents cfg now u).cols.isEmpty) = false := by
  have h1 : (transform_incidents cfg now u).rows.length = u.rows.length :=
    rows_length_transform cfg now u hne
  have h2 : (transform_incidents cfg now u).cols ≠ [] := by
    rw [cols_transform cfg now u hne]
    exact addCol_ne_nil _ _
  have h3 : u.rows.isEmpty = false := by
    rcases Bool.or_eq_false_iff.mp hne with ⟨h, _⟩
    exact h
  rw [Bool.or_eq_false_iff]
  constructor
  · rw [Bool.eq_false_iff]
    intro htrue
    rw [List.isEmpty_iff_length_eq_zero, h1] at htrue
    rw [Bool.eq_false_iff] at h3
    exact h3 (List.isEmpty_iff_length_eq_zero.mpr htrue)
  · rw [Bool.eq_false_iff]
    intro htrue
    exact h2 (List.isEmpty_iff.mp htrue)

theorem rowAt_transform_exists (cfg : TransformConfig) (now : Int) (u : Table) (i : Nat)
    (r : Row) (hne : (u.rows.isEmpty || u.cols.isEmpty) = false)
    (h : rowAt u i = some r) :
    ∃ rE, rowAt (transform_incidents cfg now u) i = some rE := by
  have hlt : i < u.rows.length := by
    rw [rowAt] at h
    exact (List.getElem?_eq_some.mp h).1
  have hlt2 : i < (transform_incidents cfg now u).rows.length := by
    rw [rows_length_transform cfg now u hne]
    exact hlt
  rw [rowAt]
  exact ⟨_, List.getElem?_eq_getElem hlt2⟩

theorem rowAt_transform_none (cfg : TransformConfig) (now : Int) (u : Table) (i : Nat)
    (hne : (u.rows.isEmpty || u.cols.isEmpty) = false)
    (h : rowAt u i = none) :
    rowAt (transform_incidents cfg now u) i = none := by
  rw [rowAt, List.getElem?_eq_none_iff] at h ⊢
  rw [rows_length_transform cfg now u hne]
  exact h

theorem mem_transform_cols (cfg : TransformConfig) (now : Int) (u : Table)
    (hne : (u.rows.isEmpty || u.cols.isEmpty) = false) (s : String) :
    s ∈ (transform_incidents cfg now u).cols ↔
      s ∈ u.cols.map normMap ∨ s ∈ derivedCols := by
  rw [cols_transform cfg now u hne]
  simp only [mem_addCol, derivedCols, List.mem_cons, List.not_mem_nil, or_false]
  tauto

theorem spec_untouched (cfg : TransformConfig) (now : Int) (u : Table) (i : Nat) (ρ : Row)
    (hne : (u.rows.isEmpty || u.cols.isEmpty) = false)
    (hρ : rowAt (parse_dates (normalize_columns u)) i = some ρ)
    (k : String) (hk : k ∉ derivedCols) :
    cellAt (transform_incidents cfg now u) i k = lookup ρ k := by
  rw [transform_incidents, if_neg (by simp [hne])]
  rw [estimate_user_impact,
    cellAt_assignCol_ne _ _ _ _ _ (fun h => hk (by rw [← h]; decide))]
  rw [calculate_sla_breach,
    cellAt_assignCol_ne _ _ _ _ _ (fun h => hk (by rw [← h]; decide)),
    cellAt_assignCol_ne _ _ _ _ _ (fun h => hk (by rw [← h]; decide))]
  rw [calculate_durations,
    cellAt_durAgePart_ne _ _ _ _ (fun h => hk (by rw [h]; decide))
      (fun h => hk (by rw [h]; decide)),
    cellAt_durResPart_ne _ _ _ (fun h => hk (by rw [h]; decide))
      (fun h => hk (by rw [h]; decide))]
  rw [add_categorization,
    cellAt_assignCol_ne _ _ _ _ _ (fun h => hk (by rw [← h]; decide))]
  rw [cellAt, rowAt_status, hρ]
  show lookup (statusRow (parse_dates (normalize_columns u)).cols ρ) k = lookup ρ k
  rw [lookup_statusRow,
    if_neg (fun h => hk (by rw [← h]; decide)),
    if_neg (fun h => hk (by rw [← h]; decide)),
    if_neg (fun h => hk (by rw [← h]; decide)),
    if_neg (fun h => hk (by rw [← h]; decide))]

theorem transform_idem_cell (cfg : TransformConfig) (now1 now2 : Int) (t : Table) (i : Nat)
    (k : String) (hk : k ∈ derivedCols)
    (hcase : k = "ageHrs" ∨ k = "ageDays" → now1 = now2) :
    cellAt (transform_incidents cfg now2 (transform_incidents cfg now1 t)) i k
      = cellAt (transform_incidents cfg now1 t) i k := by
  by_cases hguard : (t.rows.isEmpty || t.cols.isEmpty) = true
  · have hEt : transform_incidents cfg now1 t = t := by
      rw [transform_incidents, if_pos hguard]
    have hEt2 : transform_incidents cfg now2 t = t := by
      rw [transform_incidents, if_pos hguard]
    rw [hEt, hEt2]
  · have hne : (t.rows.isEmpty || t.cols.isEmpty) = false := Bool.eq_false_iff.mpr hguard
    have hneE : ((transform_incidents cfg now1 t).rows.isEmpty
        || (transform_incidents cfg now1 t).cols.isEmpty) = false :=
      transform_guard_false cfg now1 t hne
    cases hr : rowAt t i with
    | none =>
      have h1 : rowAt (transform_incidents cfg now1 t) i = none :=
        rowAt_transform_none cfg now1 t i hne hr
      have h2 : rowAt (transform_incidents cfg now2 (transform_incidents cfg now1 t)) i
          = none := rowAt_transform_none cfg now2 _ i hneE h1
      rw [cellAt, cellAt, h1, h2]
    | some r =>
      have hρt : rowAt (parse_dates (normalize_columns t)) i
          = some (parseDatesRow (t.cols.map normMap) (normRow r)) := by
        rw [rowAt_prep, hr]
        rfl
      obtain ⟨rE, hE⟩ := rowAt_transform_exists cfg now1 t i r hne hr
      have hNF : ∀ p ∈ rE, normMap p.1 = p.1 := normFixed_transform cfg now1 t i rE hne hE
      have hfixE : (transform_incidents cfg now1 t).cols.map normMap
          = (transform_incidents cfg now1 t).cols :=
        map_normMap_self _ (normFixed_transform_cols cfg now1 t hne)
      have hρE : rowAt (parse_dates (normalize_columns (transform_incidents cfg now1 t))) i
          = some (parseDatesRow (transform_incidents cfg now1 t).cols rE) := by
        rw [rowAt_prep, hE]
        show some (parseDatesRow ((transform_incidents cfg now1 t).cols.map normMap)
          (normRow rE)) = _
        rw [hfixE, normRow_eq_self rE hNF]
      have hun : ∀ k2, k2 ∉ derivedCols →
          lookup rE k2 = lookup (parseDatesRow (t.cols.map normMap) (normRow r)) k2 := by
        intro k2 hk2
        have h1 := spec_untouched cfg now1 t i _ hne hρt k2 hk2
        rw [cellAt, hE] at h1
        exact h1
      have hmem := mem_transform_cols cfg now1 t hne
      have hmemNE : ∀ s, s ∉ derivedCols →
          (s ∈ (transform_incidents cfg now1 t).cols ↔ s ∈ t.cols.map normMap) := by
        intro s hs
        rw [hmem s]
        exact or_iff_left hs
      have hmemD : ∀ s ∈ derivedCols, s ∈ (transform_incidents cfg now1 t).cols :=
        fun s hs => (hmem s).mpr (Or.inr hs)
      have hlk : ∀ k2, k2 ∉ derivedCols → k2 ∉ dateColumns →
          lookup (parseDatesRow (transform_incidents cfg now1 t).cols rE) k2
            = lookup (parseDatesRow (t.cols.map normMap) (normRow r)) k2 := by
        intro k2 h1 h2
        rw [lookup_parseDatesRow_not_date _ _ _ h2]
        exact hun k2 h1
      have hlkD : ∀ k2, k2 ∉ dateColumns →
          lookup (parseDatesRow (transform_incidents cfg now1 t).cols rE) k2
            = cellAt (transform_incidents cfg now1 t) i k2 := by
        intro k2 h2
        rw [lookup_parseDatesRow_not_date _ _ _ h2, cellAt, hE]
        rfl
      have hgetNE : ∀ k2 d, k2 ∉ derivedCols → k2 ∉ dateColumns →
          rowGet (parseDatesRow (transform_incidents cfg now1 t).cols rE) k2 d
            = rowGet (parseDatesRow (t.cols.map normMap) (normRow r)) k2 d := by
        intro k2 d h1 h2
        rw [rowGet, rowGet, hlk k2 h1 h2]
      have hopenE : lookup (parseDatesRow (transform_incidents cfg now1 t).cols rE)
          "openedDate" = lookup (parseDatesRow (t.cols.map normMap) (normRow r))
            "openedDate" := by
        rw [lookup_parseDatesRow_openedDate]
        by_cases ho : "openedDate" ∈ t.cols.map normMap
        · have h2 : lookup (parseDatesRow (t.cols.map normMap) (normRow r)) "openedDate"
              = some (toDatetime (rowGet (normRow r) "openedDate" .na)) := by
            rw [lookup_parseDatesRow_openedDate, if_pos ho]
          rw [if_pos ((hmemNE _ (by decide)).mpr ho), rowGet,
            hun "openedDate" (by decide), h2, Option.getD_some, toDatetime_idem]
        · rw [if_neg (fun hc => ho ((hmemNE _ (by decide)).mp hc))]
          exact hun "openedDate" (by decide)
      have hresolvedE : lookup (parseDatesRow (transform_incidents cfg now1 t).cols rE)
          "resolvedDate" = lookup (parseDatesRow (t.cols.map normMap) (normRow r))
            "resolvedDate" := by
        rw [lookup_parseDatesRow_resolvedDate]
        by_cases ho : "resolvedDate" ∈ t.cols.map normMap
        · have h2 : lookup (parseDatesRow (t.cols.map normMap) (normRow r)) "resolvedDate"
              = some (toDatetime (rowGet (normRow r) "resolvedDate" .na)) := by
            rw [lookup_parseDatesRow_resolvedDate, if_pos ho]
          rw [if_pos ((hmemNE _ (by decide)).mpr ho), rowGet,
            hun "resolvedDate" (by decide), h2, Option.getD_some, toDatetime_idem]
        · rw [if_neg (fun hc => ho ((hmemNE _ (by decide)).mp hc))]
          exact hun "resolvedDate" (by decide)
      have hmk : resolvedMask (parseDatesRow (transform_incidents cfg now1 t).cols rE)
          = resolvedMask (parseDatesRow (t.cols.map normMap) (normRow r)) :=
        resolvedMask_congr _ _ hresolvedE hopenE
      have hflag : (if "state" ∈ (transform_incidents cfg now1 t).cols then
            isinStr (rowGet (parseDatesRow (transform_incidents cfg now1 t).cols rE)
              "state" .na) activeStates else false)
          = (if "state" ∈ t.cols.map normMap then
            isinStr (rowGet (parseDatesRow (t.cols.map normMap) (normRow r)) "state" .na)
              activeStates else false) := by
        by_cases hs : "state" ∈ t.cols.map normMap
        · rw [if_pos ((hmemNE _ (by decide)).mpr hs), if_pos hs,
            hgetNE "state" .na (by decide) (by decide)]
        · rw [if_neg (fun hc => hs ((hmemNE _ (by decide)).mp hc)), if_neg hs]
      have hres_idem :
          cellAt (transform_incidents cfg now2 (transform_incidents cfg now1 t)) i
            "resolutionTimeHrs"
            = cellAt (transform_incidents cfg now1 t) i "resolutionTimeHrs" := by
        rw [spec_res cfg now2 _ i _ hneE hρE, spec_res cfg now1 t i _ hne hρt, hfixE]
        by_cases hd : "resolvedDate" ∈ t.cols.map normMap
            ∧ "openedDate" ∈ t.cols.map normMap
        · rw [if_pos (⟨(hmemNE _ (by decide)).mpr hd.1, (hmemNE _ (by decide)).mpr hd.2⟩ :
            _ ∧ _), if_pos hd]
          by_cases hm : resolvedMask (parseDatesRow (t.cols.map normMap) (normRow r)) = true
          · rw [if_pos (hmk.trans hm), if_pos hm, fRes_congr _ _ hresolvedE hopenE]
          · rw [if_neg (fun hc => hm (hmk.symm.trans hc)), if_neg hm,
              if_pos (hmemD "resolutionTimeHrs" (by decide)),
              hlkD "resolutionTimeHrs" (by decide),
              spec_res cfg now1 t i _ hne hρt, if_pos hd, if_neg hm]
        · rw [if_neg (fun hc => hd ⟨(hmemNE _ (by decide)).mp hc.1,
            (hmemNE _ (by decide)).mp hc.2⟩), if_neg hd]
      simp only [derivedCols, List.mem_cons, List.not_mem_nil, or_false] at hk
      rcases hk with rfl | rfl | rfl | rfl | rfl | rfl | rfl | rfl | rfl | rfl | rfl | rfl
      · rw [spec_isActive cfg now2 _ i _ hneE hρE, spec_isActive cfg now1 t i _ hne hρt,
          hfixE, hflag]
      · rw [spec_isResolved cfg now2 _ i _ hneE hρE, spec_isResolved cfg now1 t i _ hne hρt,
          hfixE]
        by_cases hs : "state" ∈ t.cols.map normMap
        · rw [if_pos ((hmemNE _ (by decide)).mpr hs), if_pos hs,
            hgetNE "state" .na (by decide) (by decide)]
        · rw [if_neg (fun hc => hs ((hmemNE _ (by decide)).mp hc)), if_neg hs]
      · rw [spec_isHighImpact cfg now2 _ i _ hneE hρE,
          spec_isHighImpact cfg now1 t i _ hne hρt, hfixE]
        by_cases hs : "priority" ∈ t.cols.map normMap
        · rw [if_pos ((hmemNE _ (by decide)).mpr hs), if_pos hs,
            hgetNE "priority" .na (by decide) (by decide)]
        · rw [if_neg (fun hc => hs ((hmemNE _ (by decide)).mp hc)), if_neg hs]
      · rw [spec_isCritical cfg now2 _ i _ hneE hρE,
          spec_isCritical cfg now1 t i _ hne hρt, hfixE]
        by_cases hs : "priority" ∈ t.cols.map normMap
        · rw [if_pos ((hmemNE _ (by decide)).mpr hs), if_pos hs,
            hgetNE "priority" .na (by decide) (by decide)]
        · rw [if_neg (fun hc => hs ((hmemNE _ (by decide)).mp hc)), if_neg hs]
      · rw [spec_patternCategory cfg now2 _ i _ hneE hρE,
          spec_patternCategory cfg now1 t i _ hne hρt,
          catText_congr _ _ (hlk "short_description" (by decide) (by decide))
            (hlk "description" (by decide) (by decide))]
      · exact hres_idem
      · rw [spec_resDays cfg now2 _ i _ hneE hρE, spec_resDays cfg now1 t i _ hne hρt, hfixE]
        by_cases hd : "resolvedDate" ∈ t.cols.map normMap
            ∧ "openedDate" ∈ t.cols.map normMap
        · rw [if_pos (⟨(hmemNE _ (by decide)).mpr hd.1, (hmemNE _ (by decide)).mpr hd.2⟩ :
            _ ∧ _), if_pos hd]
          by_cases hm : resolvedMask (parseDatesRow (t.cols.map normMap) (normRow r)) = true
          · rw [if_pos (hmk.trans hm), if_pos hm, fRes_congr _ _ hresolvedE hopenE]
          · rw [if_neg (fun hc => hm (hmk.symm.trans hc)), if_neg hm,
              if_pos (hmemD "resolutionTimeDays" (by decide)),
              hlkD "resolutionTimeDays" (by decide),
              spec_resDays cfg now1 t i _ hne hρt, if_pos hd, if_neg hm]
        · rw [if_neg (fun hc => hd ⟨(hmemNE _ (by decide)).mp hc.1,
            (hmemNE _ (by decide)).mp hc.2⟩), if_neg hd]
      · obtain rfl : now1 = now2 := hcase (Or.inl rfl)
        rw [spec_ageHrs cfg now1 _ i _ hneE hρE, spec_ageHrs cfg now1 t i _ hne hρt, hfixE]
        by_cases ho : "openedDate" ∈ t.cols.map normMap
        · rw [if_pos ((hmemNE _ (by decide)).mpr ho), if_pos ho, hflag]
          by_cases hac : (if "state" ∈ t.cols.map normMap then
              isinStr (rowGet (parseDatesRow (t.cols.map normMap) (normRow r)) "state" .na)
                activeStates else false) = true
          · rw [if_pos hac, if_pos hac, fAge_congr now1 _ _ hopenE]
          · rw [if_neg hac, if_neg hac, if_pos (hmemD "ageHrs" (by decide)),
              hlkD "ageHrs" (by decide),
              spec_ageHrs cfg now1 t i _ hne hρt, if_pos ho, if_neg hac]
        · rw [if_neg (fun hc => ho ((hmemNE _ (by decide)).mp hc)), if_neg ho]
      · obtain rfl : now1 = now2 := hcase (Or.inr rfl)
        rw [spec_ageDays cfg now1 _ i _ hneE hρE, spec_ageDays cfg now1 t i _ hne hρt, hfixE]
        by_cases ho : "openedDate" ∈ t.cols.map normMap
        · rw [if_pos ((hmemNE _ (by decide)).mpr ho), if_pos ho, hflag]
          by_cases hac : (if "state" ∈ t.cols.map normMap then
              isinStr (rowGet (parseDatesRow (t.cols.map normMap) (normRow r)) "state" .na)
                activeStates else false) = true
          · rw [if_pos hac, if_pos hac, fAge_congr now1 _ _ hopenE]
          · rw [if_neg hac, if_neg hac, if_pos (hmemD "ageDays" (by decide)),
              hlkD "ageDays" (by decide),
              spec_ageDays cfg now1 t i _ hne hρt, if_pos ho, if_neg hac]
        · rw [if_neg (fun hc => ho ((hmemNE _ (by decide)).mp hc)), if_neg ho]
      · rw [spec_slaBreach cfg now2 _ i _ hneE hρE, spec_slaBreach cfg now1 t i _ hne hρt,
          hres_idem, rowGet, rowGet, hlk "priority" (by decide) (by decide)]
      · rw [spec_slaMarginHrs cfg now2 _ i _ hneE hρE,
          spec_slaMarginHrs cfg now1 t i _ hne hρt,
          hres_idem, rowGet, rowGet, hlk "priority" (by decide) (by decide)]
      · rw [spec_userImpact cfg now2 _ i _ hneE hρE, spec_userImpact cfg now1 t i _ hne hρt,
          estimate_impact_congr _ _ (hlk "ci_type" (by decide) (by decide))
            (hlk "priority" (by decide) (by decide))]

/-- C5 counterexample: the claim as stated fails once wall-clock time has
advanced between the two runs, because `calculate_durations` recomputes the
age columns from `pd.Timestamp.now()`. On a one-row active table enriched at
01:00 and re-enriched at 02:00, `ageHrs` drifts from 1 to 2. -/
theorem c5_counterexample :
    cellAt (transform_incidents defaultConfig nowPlus2h
        (transform_incidents defaultConfig nowPlus1h activeTable)) 0 "ageHrs"
      ≠ cellAt (transform_incidents defaultConfig nowPlus1h activeTable) 0 "ageHrs" := by
  decide

/-- C5 (amended): re-running the full pipeline on its own output yields
identical values in every derived column when the snapshot instant is the
same; with the snapshot allowed to move between the runs, every derived
column except the wall-clock-dependent `ageHrs`/`ageDays` is reproduced
exactly (so there is no cumulative drift in any resolution, status,
categorization, SLA or impact field). -/
theorem c5_pipeline_idempotence :
    (∀ cfg : TransformConfig, ∀ now : Int, ∀ t : Table, ∀ i : Nat, ∀ k : String,
      k ∈ derivedCols →
      cellAt (transform_incidents cfg now (transform_incidents cfg now t)) i k
        = cellAt (transform_incidents cfg now t) i k) ∧
    (∀ cfg : TransformConfig, ∀ now1 now2 : Int, ∀ t : Table, ∀ i : Nat, ∀ k : String,
      k ∈ derivedCols → k ≠ "ageHrs" → k ≠ "ageDays" →
      cellAt (transform_incidents cfg now2 (transform_incidents cfg now1 t)) i k
        = cellAt (transform_incidents cfg now1 t) i k) := by
  constructor
  · intro cfg now t i k hk
    exact transform_idem_cell cfg now now t i k hk (fun _ => rfl)
  · intro cfg now1 now2 t i k hk h1 h2
    refine transform_idem_cell cfg now1 now2 t i k hk (fun hc => ?m)
    rcases hc with hc | hc
    · exact absurd hc h1
    · exact absurd hc h2

/-- C5 witness: at a fixed snapshot the age column is stable across a
second run, and with the snapshot moved one hour the SLA breach flag is
still reproduced exactly. -/
theorem c5_witness :
    ("ageHrs" ∈ derivedCols
      ∧ "slaBreach" ∈ derivedCols ∧ "slaBreach" ≠ "ageHrs" ∧ "slaBreach" ≠ "ageDays")
    ∧ cellAt (transform_incidents defaultConfig nowPlus1h
        (transform_incidents defaultConfig nowPlus1h activeTable)) 0 "ageHrs"
      = cellAt (transform_incidents defaultConfig nowPlus1h activeTable) 0 "ageHrs"
    ∧ cellAt (transform_incidents defaultConfig nowPlus2h
        (transform_incidents defaultConfig nowPlus1h activeTable)) 0 "slaBreach"
      = cellAt (transform_incidents defaultConfig nowPlus1h activeTable) 0 "slaBreach" :=
  ⟨⟨by decide, by decide, by decide, by decide⟩,
    c5_pipeline_idempotence.1 defaultConfig nowPlus1h activeTable 0 "ageHrs" (by decide),
    c5_pipeline_idempotence.2 defaultConfig nowPlus1h nowPlus2h activeTable 0 "slaBreach"
      (by decide) (by decide) (by decide)⟩

end Snow

